import Mathlib

/-!
Verification development for the HakoFoundry thermal-management controller.

The definitions below are shallow embeddings of the Python source:
`powerboard.py` (serial line building, PWM conversion, wattage decoding),
`fan_profile_manager.py` (fan-curve interpolation, profile demand,
curve editing, JSON persistence), `fan_control_service.py` (profile
demand arbitration, per-board update semaphores) and
`temperature_sensor_service.py` (temperature sensors and drive
temperature monitors).  Machine floats are modelled by exact rationals;
Python `round` / `numpy.round` (banker's rounding) by `pyRound`.
-/

namespace HakoFoundry

/-- Round to the nearest integer with ties going to the even integer,
the behaviour of Python's builtin `round` and of `numpy.round`. -/
def pyRound (q : ℚ) : ℤ :=
  if q - ⌊q⌋ < 1/2 then ⌊q⌋
  else if 1/2 < q - ⌊q⌋ then ⌊q⌋ + 1
  else if Even ⌊q⌋ then ⌊q⌋ else ⌊q⌋ + 1

/-- Python `round(q, 1)`: round to one decimal place, ties to even. -/
def pyRound1 (q : ℚ) : ℚ := (pyRound (10 * q) : ℚ) / 10

/-! ### Powerboard serial line building (`powerboard.py`)

`_send_command` transmits `f"{command}{params}\n"`.  `set_fan_speed`
and `update_fan_speed` build the params string from the three row
percentages, reordered as `(row2, row3, row1)`; `update_fan_speed`
additionally sends `100 - v` on each channel when the firmware is
`"2.2"`.  `_read_initial_pwm_state` parses the `P:` reply, inverts each
byte to `255 - v` when the firmware is `"2.3"`, converts to percent and
reorders the pins `(p1,p2,p3)` into logical rows `(p3,p1,p2)`. -/

/-- `Powerboard._send_command`: the exact line written to the serial port. -/
def sendCommandLine (command params : String) : String :=
  command ++ params ++ "\n"

/-- `Powerboard._convert_pwm_to_percent`: `round(pwm_value / 255 * 100)`. -/
def convertPwmToPercent (pwmValue : ℤ) : ℤ :=
  pyRound ((pwmValue : ℚ) / 255 * 100)

/-- Params string built by `Powerboard.set_fan_speed`: `f"{row2},{row3},{row1}"`. -/
def setFanSpeedParams (row1 row2 row3 : ℕ) : String :=
  toString row2 ++ "," ++ toString row3 ++ "," ++ toString row1

/-- The serial line written by `Powerboard.set_fan_speed` (command `F:`). -/
def setFanSpeedLine (row1 row2 row3 : ℕ) : String :=
  sendCommandLine "F:" (setFanSpeedParams row1 row2 row3)

/-- Params string built by `Powerboard.update_fan_speed`: on firmware
`"2.2"` each channel is sent as `100 - v`, otherwise unchanged. -/
def updateFanSpeedParams (fw : String) (row1 row2 row3 : ℕ) : String :=
  if fw = "2.2" then
    toString (100 - row2) ++ "," ++ toString (100 - row3) ++ "," ++ toString (100 - row1)
  else
    toString row2 ++ "," ++ toString row3 ++ "," ++ toString row1

/-- The serial line written by `Powerboard.update_fan_speed` (command `U:`). -/
def updateFanSpeedLine (fw : String) (row1 row2 row3 : ℕ) : String :=
  sendCommandLine "U:" (updateFanSpeedParams fw row1 row2 row3)

/-- `Powerboard._read_initial_pwm_state`: decode the three bytes of the
`P:` reply into the logical `(row1, row2, row3)` percent triple. -/
def readInitialPwmState (fw : String) (p1 p2 p3 : ℤ) : ℤ × ℤ × ℤ :=
  let pin1 := if fw = "2.3" then convertPwmToPercent (255 - p1) else convertPwmToPercent p1
  let pin2 := if fw = "2.3" then convertPwmToPercent (255 - p2) else convertPwmToPercent p2
  let pin3 := if fw = "2.3" then convertPwmToPercent (255 - p3) else convertPwmToPercent p3
  (pin3, pin1, pin2)

/-! ### Wattage decoding for hardware revisions 2.0 / 2.1 (`powerboard.py`)

`Powerboard.__init__` selects `ADC_SLOPE` / `ADC_INTERCEPT` by hardware
revision; `_update_power_usage` maps each ADC reading to a wattage,
special-casing a reading of exactly `0`. -/

/-- Python `str.startswith`: the second string is a prefix of the
first, decided on the character lists. -/
def pyStartsWith (s pre : String) : Bool := pre.data.isPrefixOf s.data

/-- Calibration constants chosen in `Powerboard.__init__`:
`(ADC_SLOPE, ADC_INTERCEPT)`; `none` for unrecognized revisions (the
source leaves the attributes unset in that case). -/
def adcCalibration (hw : String) : Option (ℚ × ℚ) :=
  if hw = "2.0" then some (3574/1000, -1375/1000)
  else if pyStartsWith hw "2.1" then some (3284/1000, -1069/1000)
  else if pyStartsWith hw "2.2" then some (3284/1000, -1069/1000)
  else none

/-- Per-channel wattage computed by `Powerboard._update_power_usage` for
non-2.2 hardware: current is `0` when the reading is `0`, otherwise
`(reading - ADC_INTERCEPT) / ADC_SLOPE`; wattage is current times 12 V. -/
def updatePowerUsageChannel (hw : String) (reading : ℚ) : Option ℚ :=
  (adcCalibration hw).map fun c =>
    (if reading = 0 then 0 else (reading - c.2) / c.1) * 12

/-! ### HW 2.2 wattage decoding (`powerboard.py`)

`_calculate_wattage_22` applies a 4×11 coefficient matrix to the
feature vector, multiplies by the voltage, rounds, clamps negatives to
zero, and finally calls `_apply_manual_offsets_22`, which adds the
`MANUAL_OFFSETS` row selected by the first argmax channel and the
nearest multiple of 12 of the dominant wattage. -/

/-- The `MANUAL_OFFSETS` table: offsets keyed by active shunt index and
expected wattage level. -/
def MANUAL_OFFSETS : List (ℕ × List (ℤ × List ℤ)) :=
  [ (0, [ (108, [1, 0, 0, 0]), (120, [1, 0, 0, 0]), (132, [1, 0, 0, 0]),
          (144, [13, 0, 0, 0]), (156, [13, 0, 0, 0]), (168, [1, 0, 0, 0]) ]),
    (1, [ (24, [0, 1, 0, 0]), (36, [0, 1, 0, 0]), (48, [0, 1, 0, 0]), (60, [0, 1, 0, 0]),
          (72, [0, 1, -1, 0]), (84, [0, 1, -1, 0]), (96, [0, 1, -1, 0]), (108, [0, 1, -1, 0]),
          (120, [0, 1, -2, 0]), (132, [0, 1, -2, 0]), (144, [0, 1, -2, 0]), (156, [0, 1, -2, 0]),
          (168, [0, 1, -2, 0]) ]),
    (2, [ (24, [0, 0, 1, 0]), (36, [0, 0, 1, 0]), (48, [0, 0, 1, 0]),
          (60, [0, -1, 1, 0]), (72, [0, -1, 1, 0]), (84, [0, -1, 1, 0]), (96, [0, -1, 1, 0]),
          (108, [0, -1, 1, 0]), (120, [0, -2, 1, 0]), (132, [0, -2, 1, 0]),
          (144, [0, -2, -11, 0]), (156, [0, -2, 1, 0]), (168, [0, -3, 1, 0]) ]),
    (3, [ (12, [0, 0, 0, 1]), (24, [0, 0, 0, 1]), (36, [0, 0, 0, 1]), (48, [0, 0, 0, 1]),
          (60, [0, 0, 0, 1]), (72, [0, 0, 0, 1]), (84, [0, 0, 0, 1]), (96, [0, 0, 0, 1]),
          (108, [0, 0, 0, 1]), (120, [0, 0, 0, 1]), (132, [0, 0, 0, 1]), (144, [0, 0, 0, 1]),
          (156, [0, 0, 0, 1]), (168, [0, 0, 0, 1]) ]) ]

/-- `MANUAL_OFFSETS.get(idx, {}).get(key, [0,0,0,0])`. -/
def offsetsLookup (idx : ℕ) (key : ℤ) : List ℤ :=
  match (MANUAL_OFFSETS.lookup idx).bind (fun table => table.lookup key) with
  | some off => off
  | none => [0, 0, 0, 0]

/-- Auxiliary loop for `numpy.argmax`: `i` is the index of the head of
the remaining list, `bi`/`bv` the best index and value so far. -/
def npArgmaxAux : ℕ → ℕ → ℤ → List ℤ → ℕ
  | _, bi, _, [] => bi
  | i, bi, bv, v :: rest =>
      if bv < v then npArgmaxAux (i + 1) i v rest else npArgmaxAux (i + 1) bi bv rest

/-- `numpy.argmax`: index of the first occurrence of the maximum. -/
def npArgmax : List ℤ → ℕ
  | [] => 0
  | x :: xs => npArgmaxAux 1 0 x xs

/-- `_apply_manual_offsets_22`: add the offset row selected by
`(argmax(wattages), round(dominant/12)*12)` to the wattage vector. -/
def applyManualOffsets22 (wattages : List ℤ) : List ℤ :=
  let activeShuntIndex := npArgmax wattages
  let activeWattage := wattages.getD activeShuntIndex 0
  let expectedWattageKey := pyRound ((activeWattage : ℚ) / 12) * 12
  let offset := offsetsLookup activeShuntIndex expectedWattageKey
  List.zipWith (· + ·) wattages offset

/-- The 4×11 regression coefficient matrix of `_calculate_wattage_22`. -/
def coefficients22 : List (List ℚ) :=
  [ [ 211/10000,  106/100000, -143/100000000, -131/100000000, -121/100000000,
      -130/100000000000, -142/100000000000, -161/100000000000,
      -111/1000000000000, -123/1000000000000, -145/1000000000000 ],
    [ -223/10000, -121/100000000,  106/100000, -111/100000000, -101/100000000,
      -121/100000000000, -131/100000000000, -143/100000000000,
      -121/1000000000000, -133/1000000000000, -155/1000000000000 ],
    [ -245/10000, -101/100000000, -131/100000000,  106/100000, -91/100000000,
      -111/100000000000, -121/100000000000, -131/100000000000,
      -131/1000000000000, -143/1000000000000, -165/1000000000000 ],
    [ -281/10000, -81/100000000, -111/100000000, -121/100000000,  106/100000,
      -101/100000000000, -111/100000000000, -121/100000000000,
      -141/1000000000000, -153/1000000000000, -175/1000000000000 ] ]

/-- The feature vector `[1, r1, r2, r3, r4, r1*r2, r1*r3, r1*r4, r2*r3, r2*r4, r3*r4]`. -/
def features22 (r1 r2 r3 r4 : ℚ) : List ℚ :=
  [1, r1, r2, r3, r4, r1*r2, r1*r3, r1*r4, r2*r3, r2*r4, r3*r4]

/-- Dot product of two rational vectors. -/
def dotQ (a b : List ℚ) : ℚ := (List.zipWith (· * ·) a b).sum

/-- The rounded-and-clamped intermediate wattages of
`_calculate_wattage_22`: matrix times features, times voltage, rounded
to integers, negatives clamped to zero. -/
def roundedClampedWattages22 (r1 r2 r3 r4 voltage : ℚ) : List ℤ :=
  let correctedCurrents := coefficients22.map (fun row => dotQ row (features22 r1 r2 r3 r4))
  let initialWattages := correctedCurrents.map (fun c => voltage * c)
  let roundedWattages := initialWattages.map pyRound
  roundedWattages.map (fun w => if w < 0 then 0 else w)

/-- `_calculate_wattage_22`: the rounded clamped wattages with the
manual offsets applied (no further clamping happens afterwards). -/
def calculateWattage22 (r1 r2 r3 r4 voltage : ℚ) : List ℤ :=
  applyManualOffsets22 (roundedClampedWattages22 r1 r2 r3 r4 voltage)

/-! ### Fan curve interpolation (`fan_profile_manager.interpolate_fan_speed`)

The source sorts the points by `x` (Python's stable sort), returns the
first/last `y` for queries at or beyond the ends, and otherwise walks
the consecutive intervals, returning the linear interpolation of the
first interval containing the query, rounded to one decimal place. -/

/-- The interval-scanning loop at the end of `interpolate_fan_speed`. -/
def findInterval : List (ℚ × ℚ) → ℚ → Option ℚ
  | p1 :: p2 :: rest, t =>
      if p1.1 ≤ t ∧ t ≤ p2.1 then
        if p2.1 = p1.1 then some p1.2
        else some (pyRound1 (p1.2 + (p2.2 - p1.2) / (p2.1 - p1.1) * (t - p1.1)))
      else findInterval (p2 :: rest) t
  | _, _ => none

/-- `interpolate_fan_speed(curve_data, temperature)`. -/
def interpolateFanSpeed (curveData : List (ℚ × ℚ)) (temperature : ℚ) : Option ℚ :=
  match List.insertionSort (fun a b : ℚ × ℚ => a.1 ≤ b.1) curveData with
  | [] => none
  | p :: rest =>
      if temperature ≤ p.1 then some p.2
      else if ((p :: rest).getLast (List.cons_ne_nil p rest)).1 ≤ temperature then
        some (((p :: rest).getLast (List.cons_ne_nil p rest)).2)
      else findInterval (p :: rest) temperature

/-- The curve invariant assumed by the spec: `x` strictly increasing. -/
def StrictXIncreasing (l : List (ℚ × ℚ)) : Prop :=
  l.Chain' (fun a b => a.1 < b.1)

/-! ### Fan curves and profile demand
(`fan_profile_manager.py`, `fan_control_service.py`)

A sensor backend is modelled as a partial map from sensor display name
to current temperature (`FanControlBackend.get_sensor_temperature`
returning `None` models an unreadable sensor). -/

/-- Default curve points of `DEFAULT_FAN_CURVE_TEMPLATE`. -/
def DEFAULT_FAN_CURVE_TEMPLATE_POINTS : List (ℚ × ℚ) :=
  [(30, 50), (40, 60), (50, 70), (60, 80), (70, 90), (80, 100)]

/-- The fields of `FanCurve` that demand computation reads. -/
structure FanCurve where
  sensor : Option String
  data : List (ℚ × ℚ)
deriving DecidableEq

/-- `FanCurve.get_current_speed`: `None` without a sensor (or with the
falsy empty-string sensor) or without a reading, otherwise the
interpolated speed at the sensor's temperature. -/
def FanCurve.getCurrentSpeed (backend : String → Option ℚ) (c : FanCurve) : Option ℚ :=
  match c.sensor with
  | none => none
  | some s =>
      if s = "" then none
      else
        match backend s with
        | none => none
        | some t => interpolateFanSpeed c.data t

/-- `FanControlProfile.get_current_speed`: running maximum over the
curves' speeds together with the count of active curves; when no curve
is active the source returns `0.0` for a nonempty curve set and `None`
for an empty one. -/
def profileGetCurrentSpeed (backend : String → Option ℚ) (curves : List FanCurve) :
    Option ℚ :=
  let acc := curves.foldl
    (fun (acc : Option ℚ × ℕ) c =>
      match FanCurve.getCurrentSpeed backend c with
      | none => acc
      | some s =>
          match acc.1 with
          | none => (some s, acc.2 + 1)
          | some m => (if m < s then some s else some m, acc.2 + 1))
    (none, 0)
  match acc.1 with
  | some m => some m
  | none => if acc.2 = 0 ∧ curves ≠ [] then some 0 else none

/-- `FanControlService._calculate_max_speed_from_profile`: maximum over
curves with a sensor, a reading and an interpolated speed, starting
from `0.0`; returns `50.0` when the profile has no curves or when no
curve contributed. -/
def calculateMaxSpeedFromProfile (backend : String → Option ℚ) (curves : List FanCurve) :
    ℚ :=
  if curves = [] then 50
  else
    let acc := curves.foldl
      (fun (acc : ℚ × ℕ) c =>
        match c.sensor with
        | none => acc
        | some s =>
            if s = "" then acc
            else
              match backend s with
              | none => acc
              | some t =>
                  match interpolateFanSpeed c.data t with
                  | none => acc
                  | some sp => (max acc.1 sp, acc.2 + 1))
      (0, 0)
    if acc.2 = 0 then 50 else acc.1

/-! ### Drive temperature monitors
(`temperature_sensor_service.DriveTemperatureMonitor`)

The drive registry `globals.drivesList` is modelled as an association
list from drive hash to the drive's `temp` attribute (`none` models a
missing or non-numeric attribute). -/

/-- The `DriveTemperatureMonitor` state read and written by the
temperature computation (history is not modelled). -/
structure DriveTemperatureMonitor where
  name : String
  aggregation_mode : String
  selected_drive_hashes : List String
  enabled : Bool
  current_temperature : ℚ
  min_temp : ℚ
  max_temp : ℚ
deriving DecidableEq

/-- A drive registry snapshot: hash to optional `temp` attribute. -/
def DriveRegistry := List (String × Option ℚ)

/-- `DriveTemperatureMonitor.get_drive_temperatures`: the temperatures
of the selected drives that exist in the registry and report a numeric
temperature strictly above zero. -/
def getDriveTemperatures (m : DriveTemperatureMonitor) (reg : DriveRegistry) : List ℚ :=
  m.selected_drive_hashes.filterMap fun h =>
    match List.lookup h reg with
    | some (some t) => if 0 < t then some t else none
    | _ => none

/-- `DriveTemperatureMonitor.calculate_temperature`: `0.0` when no
drive qualifies, otherwise the maximum or the mean rounded to 0.1. -/
def calculateTemperature (m : DriveTemperatureMonitor) (reg : DriveRegistry) : ℚ :=
  match getDriveTemperatures m reg with
  | [] => 0
  | t :: ts =>
      if m.aggregation_mode = "maximum" then ts.foldl max t
      else pyRound1 ((t :: ts).sum / (t :: ts).length)

/-- `DriveTemperatureMonitor.update_temperature`: only a strictly
positive new temperature is written back; otherwise the state is left
untouched. -/
def updateTemperature (m : DriveTemperatureMonitor) (reg : DriveRegistry) :
    DriveTemperatureMonitor :=
  if 0 < calculateTemperature m reg then
    { m with
      current_temperature := calculateTemperature m reg,
      min_temp :=
        if m.min_temp = 0 ∨ calculateTemperature m reg < m.min_temp then
          calculateTemperature m reg
        else m.min_temp,
      max_temp :=
        if m.max_temp < calculateTemperature m reg then calculateTemperature m reg
        else m.max_temp }
  else m

/-- `DriveTemperatureMonitor.get_current_temperature`: update, then
report the cached temperature; `0.0` when disabled. -/
def monitorGetCurrentTemperature (m : DriveTemperatureMonitor) (reg : DriveRegistry) : ℚ :=
  if m.enabled then (updateTemperature m reg).current_temperature else 0

/-! ### Temperature sensors (`temperature_sensor_service.TemperatureSensor`)

The hwmon file system is modelled as a partial map from path to the
millidegree integer content of an existing, readable, parseable sensor
file. -/

/-- The `TemperatureSensor` fields read by the temperature getters. -/
structure TemperatureSensor where
  name : String
  temperature : ℚ
  enabled : Bool
  hardware_path : Option String
deriving DecidableEq

/-- The sensor file system: path to millidegree content, `none` when
the file is missing or unreadable. -/
def SensorFs := String → Option ℤ

/-- `LinuxHardwareMonitor.read_temperature`: millidegrees to Celsius
rounded to 0.1. -/
def readTemperature (fs : SensorFs) (sensorPath : String) : Option ℚ :=
  (fs sensorPath).map fun m => pyRound1 ((m : ℚ) / 1000)

/-- `TemperatureSensor.read_hardware_temperature`: `None` unless a
truthy path is set and the file exists. -/
def readHardwareTemperature (fs : SensorFs) (s : TemperatureSensor) : Option ℚ :=
  match s.hardware_path with
  | some p => if p ≠ "" ∧ (fs p).isSome then readTemperature fs p else none
  | none => none

/-- `TemperatureSensor.get_current_temperature`: hardware reading if
available, otherwise the cached temperature when positive, else `0.0`;
`0.0` when disabled. -/
def sensorGetCurrentTemperature (fs : SensorFs) (s : TemperatureSensor) : ℚ :=
  if s.enabled then
    match readHardwareTemperature fs s with
    | some t => t
    | none => if 0 < s.temperature then s.temperature else 0
  else 0

/-! ### Curve data editing (`FanControlProfile.set_curve_data`)

The profile's `_fan_curves` dict is modelled as an association list
from curve id to the curve's `_data` points. -/

/-- `FanControlProfile.set_curve_data`: store the given list verbatim
when the curve id exists, returning the new state and the result flag. -/
def setCurveData (fanCurves : List (String × List (ℚ × ℚ))) (curveId : String)
    (data : List (ℚ × ℚ)) : List (String × List (ℚ × ℚ)) × Bool :=
  if (List.lookup curveId fanCurves).isSome then
    (fanCurves.map (fun kv => if kv.1 = curveId then (kv.1, data) else kv), true)
  else (fanCurves, false)

/-- The curve invariants stated by the spec: at least two points,
strictly increasing `x`, `y` within `[0, 100]`. -/
def ValidCurveData (data : List (ℚ × ℚ)) : Prop :=
  2 ≤ data.length ∧ StrictXIncreasing data ∧ ∀ p ∈ data, 0 ≤ p.2 ∧ p.2 ≤ 100

instance : DecidablePred ValidCurveData := fun data => by
  unfold ValidCurveData StrictXIncreasing
  infer_instance

/-! ### Profile persistence (`fan_profile_manager.py`)

JSON values are modelled by `J`; Python dicts by insertion-ordered
association lists with unique keys (`pyDict` replays a dict
comprehension's insert-or-overwrite behaviour).  The fresh UUIDs that
`from_json` generates for id-less records are passed in as explicit
supplies. -/

/-- A JSON value.  Objects are insertion-ordered key/value lists. -/
inductive J where
  | null : J
  | bool : Bool → J
  | num : ℚ → J
  | str : String → J
  | arr : List J → J
  | obj : List (String × J) → J

/-- Python `dict.get(key)` on a JSON object. -/
def J.get (j : J) (key : String) : Option J :=
  match j with
  | J.obj fields => List.lookup key fields
  | _ => none

/-- `dict.get(key, default)` for a string-valued field. -/
def J.getStrD (j : J) (key d : String) : String :=
  match j.get key with
  | some (J.str s) => s
  | _ => d

/-- Build a dict by inserting pairs in order: an existing key keeps its
position and takes the new value, a new key is appended. -/
def pyDictInsert (l : List (String × J)) (kv : String × J) : List (String × J) :=
  if l.any (fun x => x.1 = kv.1) then l.map (fun x => if x.1 = kv.1 then kv else x)
  else l ++ [kv]

/-- Python dict comprehension over a pair list. -/
def pyDict (l : List (String × J)) : List (String × J) :=
  l.foldl pyDictInsert []

namespace Persist

/-- `DEFAULT_FAN_CURVE_TEMPLATE` as a JSON value. -/
def DEFAULT_FAN_CURVE_TEMPLATE : J :=
  J.arr
    [ J.obj [("x", J.num 30), ("y", J.num 50)], J.obj [("x", J.num 40), ("y", J.num 60)],
      J.obj [("x", J.num 50), ("y", J.num 70)], J.obj [("x", J.num 60), ("y", J.num 80)],
      J.obj [("x", J.num 70), ("y", J.num 90)], J.obj [("x", J.num 80), ("y", J.num 100)] ]

/-- The persisted fields of `FanCurve`: `sensor` and `_data` are kept
verbatim as the JSON values the loader stored. -/
structure FanCurve where
  id : String
  name : String
  sensor : J
  data : J

/-- `FanCurve.to_json`. -/
def FanCurve.to_json (c : FanCurve) : J :=
  J.obj [("id", J.str c.id), ("name", J.str c.name), ("sensor", c.sensor), ("data", c.data)]

/-- `FanCurve.from_json`; `freshId` is the `uuid.uuid4()` fallback. -/
def FanCurve.from_json (freshId : String) (data : J) : FanCurve :=
  { id := data.getStrD "id" freshId
    name := data.getStrD "name" "Fan Curve"
    sensor := (data.get "sensor").getD J.null
    data := (data.get "data").getD DEFAULT_FAN_CURVE_TEMPLATE }

/-- The persisted fields of `FanControlProfile`; `fan_curves` models
the insertion-ordered id-keyed curve dict. -/
structure FanControlProfile where
  id : String
  name : String
  fan_curves : List FanCurve

/-- Insert a curve into the id-keyed dict: replacement in place for an
existing id, append otherwise. -/
def upsertById (cs : List FanCurve) (c : FanCurve) : List FanCurve :=
  if cs.any (fun x => x.id = c.id) then cs.map (fun x => if x.id = c.id then c else x)
  else cs ++ [c]

/-- `FanControlProfile.to_json`: curves are re-keyed by curve name via
a dict comprehension. -/
def FanControlProfile.to_json (p : FanControlProfile) : J :=
  J.obj
    [ ("id", J.str p.id), ("name", J.str p.name),
      ("curves", J.obj (pyDict (p.fan_curves.map fun c => (c.name, c.to_json)))) ]

/-- `FanControlProfile.from_json`; `freshIds i` is the uuid fallback
for the `i`-th curve record, `freshId` the profile's own fallback. -/
def FanControlProfile.from_json (freshId : String) (freshIds : ℕ → String) (data : J) :
    FanControlProfile :=
  { id := data.getStrD "id" freshId
    name := data.getStrD "name" "Fan Profile"
    fan_curves :=
      (match data.get "curves" with
        | some (J.obj fields) => fields
        | _ => ([] : List (String × J))).enum.foldl
        (fun acc (ikv : ℕ × String × J) => upsertById acc (FanCurve.from_json (freshIds ikv.1) ikv.2.2)) [] }

/-- `ConfigManager.save_profiles`: the whole JSON document written to
disk, with the `saved_at` timestamp passed in. -/
def save_profiles (profiles : List (String × FanControlProfile)) (now : String) : J :=
  J.obj
    [ ("profiles", J.obj (profiles.map fun kv => (kv.1, kv.2.to_json))),
      ("saved_at", J.str now) ]

/-- `ConfigManager.load_profiles`: parse the document back into
profiles keyed by the document's profile keys; `freshP`/`freshC` supply
the uuid fallbacks for the `i`-th profile and its `k`-th curve. -/
def load_profiles (freshP : ℕ → String) (freshC : ℕ → ℕ → String) (doc : J) :
    List (String × FanControlProfile) :=
  (match doc.get "profiles" with
    | some (J.obj fields) => fields
    | _ => ([] : List (String × J))).enum.map
    fun (ikv : ℕ × String × J) => (ikv.2.1, FanControlProfile.from_json (freshP ikv.1) (freshC ikv.1) ikv.2.2)

end Persist

/-! ### Per-board update arbitration
(`fan_control_service.FanControlService.request_update_fan_speed`,
`powerboard.Powerboard.update_fan_speed`)

Each wall-update request runs:
non-blocking acquire of the per-board update semaphore
(`update_pwm_semaphore.acquire(blocking=False)`); on failure it returns
at once.  On success it blocks on the board semaphore and releases it
(`semaphore.acquire; semaphore.release`), reads the latest slider
values, then calls `Powerboard.update_fan_speed`, whose
`with self.semaphore` block performs the single serial write → read
pair, and finally releases the update semaphore.  The interleaving of
any number of such requests is modelled as a labelled transition
system over thread locations. -/

namespace Arb

/-- Control locations of one wall-update request. -/
inductive Loc where
  /-- about to try the non-blocking acquire of the update semaphore -/
  | start : Loc
  /-- won the update semaphore, about to wait on the board semaphore -/
  | preWait : Loc
  /-- holds the board semaphore during the wait step -/
  | waitHeld : Loc
  /-- released the wait hold, about to enter `update_fan_speed` -/
  | preUpdate : Loc
  /-- holds the board semaphore: serial write → read pair in flight -/
  | inFlight : Loc
  /-- serial pair completed, about to release the update semaphore -/
  | postWrite : Loc
  /-- finished -/
  | done : Loc
  /-- failed the non-blocking acquire and returned -/
  | dropped : Loc
deriving DecidableEq

/-- Global state: the two per-board semaphores (`true` = available),
all request threads, and the event counters the claim compares. -/
structure Sys where
  updSem : Bool
  boardSem : Bool
  threads : List Loc
  wins : ℕ
  writes : ℕ
deriving DecidableEq

/-- One interleaving step of some thread. -/
inductive Step : Sys → Sys → Prop where
  /-- `update_pwm_semaphore.acquire(blocking=False)` succeeds. -/
  | tryAcquireWin (s : Sys) (i : ℕ) :
      s.threads.get? i = some .start → s.updSem = true →
      Step s { s with updSem := false, threads := s.threads.set i .preWait,
                      wins := s.wins + 1 }
  /-- the non-blocking acquire fails: the request returns immediately. -/
  | tryAcquireFail (s : Sys) (i : ℕ) :
      s.threads.get? i = some .start → s.updSem = false →
      Step s { s with threads := s.threads.set i .dropped }
  /-- the blocking `powerboard.semaphore.acquire` of the wait step. -/
  | acquireBoardWait (s : Sys) (i : ℕ) :
      s.threads.get? i = some .preWait → s.boardSem = true →
      Step s { s with boardSem := false, threads := s.threads.set i .waitHeld }
  /-- the matching `semaphore.release` of the wait step. -/
  | releaseBoardWait (s : Sys) (i : ℕ) :
      s.threads.get? i = some .waitHeld →
      Step s { s with boardSem := true, threads := s.threads.set i .preUpdate }
  /-- `update_fan_speed` enters `with self.semaphore`. -/
  | acquireBoardUpdate (s : Sys) (i : ℕ) :
      s.threads.get? i = some .preUpdate → s.boardSem = true →
      Step s { s with boardSem := false, threads := s.threads.set i .inFlight }
  /-- the serial write → read pair completes and the board semaphore is
  released at the end of the `with` block. -/
  | completeWrite (s : Sys) (i : ℕ) :
      s.threads.get? i = some .inFlight →
      Step s { s with boardSem := true, threads := s.threads.set i .postWrite,
                      writes := s.writes + 1 }
  /-- the `finally: update_pwm_semaphore.release()`. -/
  | releaseUpd (s : Sys) (i : ℕ) :
      s.threads.get? i = some .postWrite →
      Step s { s with updSem := true, threads := s.threads.set i .done }

/-- Reachability from a starting state. -/
inductive Reachable (s₀ : Sys) : Sys → Prop where
  | refl : Reachable s₀ s₀
  | step {s s' : Sys} : Reachable s₀ s → Step s s' → Reachable s₀ s'

/-- `n` concurrent wall-update requests against an idle board. -/
def mkInit (n : ℕ) : Sys :=
  { updSem := true, boardSem := true, threads := List.replicate n .start,
    wins := 0, writes := 0 }

/-- Locations that hold the update semaphore. -/
def holdsUpd : Loc → Bool
  | .preWait | .waitHeld | .preUpdate | .inFlight | .postWrite => true
  | _ => false

/-- Locations that hold the board semaphore. -/
def holdsBoard : Loc → Bool
  | .waitHeld | .inFlight => true
  | _ => false

/-- Locations a thread reaches only after winning the try-acquire. -/
def countedWin : Loc → Bool
  | .preWait | .waitHeld | .preUpdate | .inFlight | .postWrite | .done => true
  | _ => false

/-- Locations a thread reaches only after completing its serial write. -/
def wrote : Loc → Bool
  | .postWrite | .done => true
  | _ => false

/-- The inductive invariant tying semaphores and counters to thread
locations. -/
def Inv (s : Sys) : Prop :=
  s.threads.countP holdsUpd = (if s.updSem then 0 else 1)
  ∧ s.threads.countP holdsBoard = (if s.boardSem then 0 else 1)
  ∧ s.wins = s.threads.countP countedWin
  ∧ s.writes = s.threads.countP wrote

end Arb

/-! ## Theorems -/

/-- **C3.** For every integer triple `(row1,row2,row3)` each in 0–100:
`set_fan_speed` writes exactly `"F:row2,row3,row1\n"`; `update_fan_speed`
writes `"U:row2,row3,row1\n"` except that on firmware `"2.2"` each
transmitted value `v` is replaced by `100 − v`; and on construction the
three bytes of the `P:` reply are each inverted to `255 − v` exactly
when the firmware is `"2.3"`, converted to percent via
`round(v/255·100)`, and reordered from wire order `(p1,p2,p3)` into
logical rows `(p3,p1,p2)`. -/
theorem C3_serial_protocol :
    (∀ row1 row2 row3 : ℕ, row1 ≤ 100 → row2 ≤ 100 → row3 ≤ 100 →
      setFanSpeedLine row1 row2 row3 =
        "F:" ++ (toString row2 ++ "," ++ toString row3 ++ "," ++ toString row1) ++ "\n")
    ∧ (∀ fw : String, fw ≠ "2.2" → ∀ row1 row2 row3 : ℕ,
        row1 ≤ 100 → row2 ≤ 100 → row3 ≤ 100 →
        updateFanSpeedLine fw row1 row2 row3 =
          "U:" ++ (toString row2 ++ "," ++ toString row3 ++ "," ++ toString row1) ++ "\n")
    ∧ (∀ row1 row2 row3 : ℕ, row1 ≤ 100 → row2 ≤ 100 → row3 ≤ 100 →
        updateFanSpeedLine "2.2" row1 row2 row3 =
          "U:" ++ (toString (100 - row2) ++ "," ++ toString (100 - row3) ++ ","
            ++ toString (100 - row1)) ++ "\n")
    ∧ (∀ fw : String, fw ≠ "2.3" → ∀ p1 p2 p3 : ℤ,
        readInitialPwmState fw p1 p2 p3 =
          (pyRound ((p3 : ℚ) / 255 * 100), pyRound ((p1 : ℚ) / 255 * 100),
            pyRound ((p2 : ℚ) / 255 * 100)))
    ∧ (∀ p1 p2 p3 : ℤ,
        readInitialPwmState "2.3" p1 p2 p3 =
          (pyRound (((255 - p3 : ℤ) : ℚ) / 255 * 100),
            pyRound (((255 - p1 : ℤ) : ℚ) / 255 * 100),
            pyRound (((255 - p2 : ℤ) : ℚ) / 255 * 100))) := by
  refine ⟨fun r1 r2 r3 _ _ _ => rfl, fun fw hfw r1 r2 r3 _ _ _ => ?_,
    fun r1 r2 r3 _ _ _ => rfl, fun fw hfw p1 p2 p3 => ?_, fun p1 p2 p3 => rfl⟩
  · simp [updateFanSpeedLine, updateFanSpeedParams, sendCommandLine, hfw,
      String.append_assoc]
  · simp [readInitialPwmState, convertPwmToPercent, hfw]

/-- Witness for C3 at `(30,60,90)` and `P:` bytes `(10,20,30)`;
the two serial lines are exactly scenarios S4 and S5 of the spec. -/
theorem C3_serial_protocol_witness :
    setFanSpeedLine 30 60 90 = "F:60,90,30\n"
    ∧ updateFanSpeedLine "2.1" 30 60 90 = "U:60,90,30\n"
    ∧ updateFanSpeedLine "2.2" 30 60 90 = "U:40,10,70\n"
    ∧ readInitialPwmState "2.3" 10 20 30 =
        (pyRound (((255 - 30 : ℤ) : ℚ) / 255 * 100),
          pyRound (((255 - 10 : ℤ) : ℚ) / 255 * 100),
          pyRound (((255 - 20 : ℤ) : ℚ) / 255 * 100)) := by
  refine ⟨?_, ?_, ?_, C3_serial_protocol.2.2.2.2 10 20 30⟩
  · exact (C3_serial_protocol.1 30 60 90 (by decide) (by decide) (by decide)).trans (by decide)
  · exact (C3_serial_protocol.2.1 "2.1" (by decide) 30 60 90 (by decide) (by decide)
      (by decide)).trans (by decide)
  · exact (C3_serial_protocol.2.2.1 30 60 90 (by decide) (by decide) (by decide)).trans
      (by decide)

/-- **C9 (counterexample).** The claim's formula
`(r − intercept)/slope × 12` does not hold at `r = 0`: the code
special-cases a zero reading to wattage `0`, while the formula yields
`1.375/3.574 × 12 ≈ 4.6 ≠ 0` on revision 2.0. -/
theorem C9_zero_reading_counterexample :
    updatePowerUsageChannel "2.0" 0 = some 0
    ∧ (0 - (-1375/1000 : ℚ)) / (3574/1000) * 12 ≠ 0
    ∧ updatePowerUsageChannel "2.0" 0 ≠ some ((0 - (-1375/1000 : ℚ)) / (3574/1000) * 12) := by
  refine ⟨?_, by norm_num, ?_⟩ <;>
    norm_num [updatePowerUsageChannel, adcCalibration]

/-- **C9 (amended).** For hardware revision 2.0 (slope 3.574, intercept
−1.375) and revisions starting with 2.1 (slope 3.284, intercept
−1.069), every nonzero ADC reading `r` decodes to
`(r − intercept)/slope × 12`; a reading of exactly `0` decodes to `0`. -/
theorem C9_adc_wattage_decoding :
    (∀ r : ℚ, r ≠ 0 →
      updatePowerUsageChannel "2.0" r = some ((r - (-1375/1000)) / (3574/1000) * 12))
    ∧ (∀ hw : String, pyStartsWith hw "2.1" → ∀ r : ℚ, r ≠ 0 →
      updatePowerUsageChannel hw r = some ((r - (-1069/1000)) / (3284/1000) * 12))
    ∧ updatePowerUsageChannel "2.0" 0 = some 0
    ∧ (∀ hw : String, pyStartsWith hw "2.1" →
      updatePowerUsageChannel hw 0 = some 0) := by
  have h21 : ∀ hw : String, pyStartsWith hw "2.1" → hw ≠ "2.0" := by
    intro hw h heq
    rw [heq] at h
    exact absurd h (by decide)
  refine ⟨fun r hr => ?_, fun hw hhw r hr => ?_, ?_, fun hw hhw => ?_⟩
  · simp [updatePowerUsageChannel, adcCalibration, hr]
  · simp [updatePowerUsageChannel, adcCalibration, hr, h21 hw hhw, hhw]
  · simp [updatePowerUsageChannel, adcCalibration]
  · simp [updatePowerUsageChannel, adcCalibration, h21 hw hhw, hhw]

/-- Witness for C9 at revision "2.0", reading 1 and revision "2.1",
reading 2. -/
theorem C9_adc_wattage_decoding_witness :
    updatePowerUsageChannel "2.0" 1 = some ((1 - (-1375/1000 : ℚ)) / (3574/1000) * 12)
    ∧ updatePowerUsageChannel "2.1" 2 = some ((2 - (-1069/1000 : ℚ)) / (3284/1000) * 12)
    ∧ updatePowerUsageChannel "2.1" 0 = some 0 :=
  ⟨C9_adc_wattage_decoding.1 1 (by norm_num),
    C9_adc_wattage_decoding.2.1 "2.1" (by decide) 2 (by norm_num),
    C9_adc_wattage_decoding.2.2.2 "2.1" (by decide)⟩

/-- **C2 (counterexample).** At ADC readings `(0, 9370, 90, 0)` the
rounded clamped matrix output is `[0,119,1,0]`; the offset row
`[0,1,−2,0]` (shunt 2, key 120) is added, but the source applies no
clamp after the offset, so the final output is `[0,120,−1,0]`, not the
claimed `[0,120,0,0]`. -/
theorem C2_hw22_offset_counterexample :
    roundedClampedWattages22 0 9370 90 0 12 = [0, 119, 1, 0]
    ∧ calculateWattage22 0 9370 90 0 12 = [0, 120, -1, 0]
    ∧ calculateWattage22 0 9370 90 0 12 ≠ [0, 120, 0, 0] := by
  have h1 : roundedClampedWattages22 0 9370 90 0 12 = [0, 119, 1, 0] := by
    norm_num [roundedClampedWattages22, coefficients22, features22, dotQ, pyRound]
  have h2 : calculateWattage22 0 9370 90 0 12 = [0, 120, -1, 0] := by
    rw [calculateWattage22, h1]
    norm_num [applyManualOffsets22, npArgmax, npArgmaxAux, offsetsLookup, MANUAL_OFFSETS,
      pyRound, List.lookup]
    all_goals decide
  exact ⟨h1, h2, by rw [h2]; decide⟩

/-- **C2 (amended).** After rounding and clamping the matrix output,
the offset row keyed by `(argmax, round(dominant/12)·12)` is added with
`[0,0,0,0]` for absent keys, and no clamp is applied afterwards; in
particular every input whose rounded clamped wattages are `[0,119,1,0]`
produces the final output `[0,120,−1,0]`. -/
theorem C2_hw22_offset_application :
    applyManualOffsets22 [0, 119, 1, 0] = [0, 120, -1, 0]
    ∧ applyManualOffsets22 [0, 0, 0, 0] = [0, 0, 0, 0]
    ∧ (∀ r1 r2 r3 r4 : ℚ, roundedClampedWattages22 r1 r2 r3 r4 12 = [0, 119, 1, 0] →
        calculateWattage22 r1 r2 r3 r4 12 = [0, 120, -1, 0]) := by
  have hoff : applyManualOffsets22 [0, 119, 1, 0] = [0, 120, -1, 0] := by
    norm_num [applyManualOffsets22, npArgmax, npArgmaxAux, offsetsLookup, MANUAL_OFFSETS,
      pyRound, List.lookup]
    all_goals decide
  refine ⟨hoff, ?_, fun r1 r2 r3 r4 h => ?_⟩
  · norm_num [applyManualOffsets22, npArgmax, npArgmaxAux, offsetsLookup, MANUAL_OFFSETS,
      pyRound, List.lookup]
    all_goals decide
  · rw [calculateWattage22, h, hoff]

/-- Witness for C2 at the concrete ADC readings `(0, 9370, 90, 0)`. -/
theorem C2_hw22_offset_application_witness :
    calculateWattage22 0 9370 90 0 12 = [0, 120, -1, 0] :=
  C2_hw22_offset_application.2.2 0 9370 90 0
    (by norm_num [roundedClampedWattages22, coefficients22, features22, dotQ, pyRound])

/-- Looking up a key after replacing its value in an association list. -/
lemma lookup_map_replace {β : Type} (cs : List (String × β)) (cid : String) (d : β)
    (h : (List.lookup cid cs).isSome) :
    List.lookup cid (cs.map fun kv => if kv.1 = cid then (kv.1, d) else kv) = some d := by
  induction cs with
  | nil => simp [List.lookup] at h
  | cons kv rest ih =>
      obtain ⟨k, v⟩ := kv
      by_cases hk : k = cid
      · subst hk
        simp [List.lookup_cons]
      · have hk' : cid ≠ k := fun he => hk he.symm
        rw [List.lookup_cons, beq_false_of_ne hk'] at h
        simp only [List.map_cons, if_neg hk]
        rw [List.lookup_cons, beq_false_of_ne hk']
        exact ih h

/-- **C7 (counterexample).** `set_curve_data` performs no validation:
replacing the default curve data of an existing curve with the single
out-of-range point `(50, 150)` succeeds, and the invalid list is stored
verbatim in place of the previous points. -/
theorem C7_set_curve_data_counterexample :
    ¬ ValidCurveData [((50 : ℚ), (150 : ℚ))]
    ∧ setCurveData [("c1", DEFAULT_FAN_CURVE_TEMPLATE_POINTS)] "c1" [(50, 150)]
        = ([("c1", [(50, 150)])], true)
    ∧ List.lookup "c1"
        (setCurveData [("c1", DEFAULT_FAN_CURVE_TEMPLATE_POINTS)] "c1" [(50, 150)]).1
        ≠ some DEFAULT_FAN_CURVE_TEMPLATE_POINTS := by
  refine ⟨by decide, by decide, by decide⟩

/-- **C7 (amended).** `set_curve_data` neither rejects nor normalizes:
whenever the curve id exists, the call succeeds and stores the given
point list verbatim — whether or not it satisfies the curve invariants
— replacing the previously stored data; only a nonexistent curve id is
rejected, in which case the state is unchanged. -/
theorem C7_set_curve_data_stores_verbatim :
    ∀ (cs : List (String × List (ℚ × ℚ))) (cid : String) (data : List (ℚ × ℚ)),
      ((List.lookup cid cs).isSome →
        (setCurveData cs cid data).2 = true
        ∧ List.lookup cid (setCurveData cs cid data).1 = some data)
      ∧ ((List.lookup cid cs).isNone → setCurveData cs cid data = (cs, false)) := by
  intro cs cid data
  constructor
  · intro h
    refine ⟨by simp [setCurveData, h], ?_⟩
    simp only [setCurveData, h, if_true]
    exact lookup_map_replace cs cid data h
  · intro h
    have h' : ¬(List.lookup cid cs).isSome := by
      simp [Option.isNone_iff_eq_none.mp h]
    simp [setCurveData, h']

/-- Witness for C7: storing an invalid single point over the default
template succeeds, and a missing id leaves the state unchanged. -/
theorem C7_set_curve_data_stores_verbatim_witness :
    ((List.lookup "c1" [("c1", DEFAULT_FAN_CURVE_TEMPLATE_POINTS)]).isSome →
      (setCurveData [("c1", DEFAULT_FAN_CURVE_TEMPLATE_POINTS)] "c1" [((50:ℚ), (150:ℚ))]).2
          = true
      ∧ List.lookup "c1"
          (setCurveData [("c1", DEFAULT_FAN_CURVE_TEMPLATE_POINTS)] "c1" [(50, 150)]).1
          = some [(50, 150)])
    ∧ ((List.lookup "c2" [("c1", DEFAULT_FAN_CURVE_TEMPLATE_POINTS)]).isNone →
      setCurveData [("c1", DEFAULT_FAN_CURVE_TEMPLATE_POINTS)] "c2" [((50:ℚ), (150:ℚ))]
          = ([("c1", DEFAULT_FAN_CURVE_TEMPLATE_POINTS)], false)) :=
  ⟨(C7_set_curve_data_stores_verbatim
      [("c1", DEFAULT_FAN_CURVE_TEMPLATE_POINTS)] "c1" [(50, 150)]).1,
    (C7_set_curve_data_stores_verbatim
      [("c1", DEFAULT_FAN_CURVE_TEMPLATE_POINTS)] "c2" [(50, 150)]).2⟩

/-- **C6 (counterexample).** A sensor whose handle is gone does not
report "unavailable" from `get_current_temperature`: with a cached last
reading of 45 °C and no hardware path, `read_hardware_temperature` is
`None` but `get_current_temperature` returns the numeric 45. -/
theorem C6_cached_fallback_counterexample :
    readHardwareTemperature (fun _ => none)
        { name := "CPU", temperature := 45, enabled := true, hardware_path := none } = none
    ∧ sensorGetCurrentTemperature (fun _ => none)
        { name := "CPU", temperature := 45, enabled := true, hardware_path := none } = 45
    ∧ (45 : ℚ) ≠ 0 := by
  refine ⟨rfl, by decide, by decide⟩

/-- **C6 (amended).** For every enabled sensor whose handle is absent
or whose handle path no longer exists, `read_hardware_temperature`
reports the reading as unavailable (`None`) and never fabricates a
value; `get_current_temperature`, however, falls back to the cached
last reading when it is positive and to the numeric sentinel `0.0`
otherwise, rather than reporting unavailability. -/
theorem C6_unresolvable_handle_reading :
    ∀ (fs : SensorFs) (s : TemperatureSensor), s.enabled = true →
      (s.hardware_path = none ∨ ∃ p, s.hardware_path = some p ∧ (p = "" ∨ fs p = none)) →
      readHardwareTemperature fs s = none
      ∧ sensorGetCurrentTemperature fs s =
          (if 0 < s.temperature then s.temperature else 0) := by
  intro fs s hen hpath
  have hhw : readHardwareTemperature fs s = none := by
    rcases hpath with h | ⟨p, hp, hcase⟩
    · simp [readHardwareTemperature, h]
    · rcases hcase with h0 | h0 <;>
        simp [readHardwareTemperature, hp, h0]
  refine ⟨hhw, ?_⟩
  simp [sensorGetCurrentTemperature, hen, hhw]

/-- Witness for C6: an enabled sensor with a vanished path and cached
reading 45. -/
theorem C6_unresolvable_handle_reading_witness :
    readHardwareTemperature (fun _ => none)
        { name := "CPU", temperature := 45, enabled := true,
          hardware_path := some "/sys/class/hwmon/hwmon0/temp1_input" } = none
    ∧ sensorGetCurrentTemperature (fun _ => none)
        { name := "CPU", temperature := 45, enabled := true,
          hardware_path := some "/sys/class/hwmon/hwmon0/temp1_input" } =
        (if 0 < (45 : ℚ) then (45 : ℚ) else 0) :=
  C6_unresolvable_handle_reading (fun _ => none)
    { name := "CPU", temperature := 45, enabled := true,
      hardware_path := some "/sys/class/hwmon/hwmon0/temp1_input" }
    rfl (Or.inr ⟨_, rfl, Or.inr rfl⟩)

/-- **C4 (counterexample).** When the set of readable selected drives
is empty the monitor does not become "unavailable": with an empty
registry, a monitor with one selected drive and cached reading 45 °C
still reports the numeric temperature 45 from
`get_current_temperature`. -/
theorem C4_stale_reading_counterexample :
    getDriveTemperatures
        { name := "M", aggregation_mode := "average", selected_drive_hashes := ["h1"],
          enabled := true, current_temperature := 45, min_temp := 40, max_temp := 45 }
        ([] : DriveRegistry) = []
    ∧ monitorGetCurrentTemperature
        { name := "M", aggregation_mode := "average", selected_drive_hashes := ["h1"],
          enabled := true, current_temperature := 45, min_temp := 40, max_temp := 45 }
        ([] : DriveRegistry) = 45
    ∧ (45 : ℚ) ≠ 0 := by
  refine ⟨rfl, by decide, by decide⟩

/-- **C4 (amended).** The published temperature aggregates exactly the
selected drives present in the registry with temperature > 0 (mean
rounded to 0.1 for mode `average`, maximum for mode `maximum`; for
temps {40, 50, missing} this gives 45.0 and 50.0); but when that set is
empty, `calculate_temperature` returns the numeric sentinel `0.0` and
`update_temperature` leaves the monitor unchanged, so the monitor keeps
reporting its last cached numeric temperature instead of becoming
unavailable. -/
theorem C4_drive_monitor_aggregation :
    (∀ (m : DriveTemperatureMonitor) (reg : DriveRegistry),
      (getDriveTemperatures m reg = [] →
        calculateTemperature m reg = 0 ∧ updateTemperature m reg = m)
      ∧ (∀ t ts, getDriveTemperatures m reg = t :: ts →
          calculateTemperature m reg =
            (if m.aggregation_mode = "maximum" then ts.foldl max t
             else pyRound1 ((t :: ts).sum / (t :: ts).length))))
    ∧ calculateTemperature
        { name := "M", aggregation_mode := "average",
          selected_drive_hashes := ["h1", "h2", "h3"], enabled := true,
          current_temperature := 0, min_temp := 0, max_temp := 0 }
        [("h1", some 40), ("h2", some 50)] = 45
    ∧ calculateTemperature
        { name := "M", aggregation_mode := "maximum",
          selected_drive_hashes := ["h1", "h2", "h3"], enabled := true,
          current_temperature := 0, min_temp := 0, max_temp := 0 }
        [("h1", some 40), ("h2", some 50)] = 50 := by
  refine ⟨fun m reg => ⟨fun h => ?_, fun t ts h => ?_⟩, ?_, ?_⟩
  · have hc : calculateTemperature m reg = 0 := by
      simp [calculateTemperature, h]
    exact ⟨hc, by simp [updateTemperature, hc]⟩
  · simp [calculateTemperature, h]
  · have hg : getDriveTemperatures
        { name := "M", aggregation_mode := "average",
          selected_drive_hashes := ["h1", "h2", "h3"], enabled := true,
          current_temperature := 0, min_temp := 0, max_temp := 0 }
        [("h1", some 40), ("h2", some 50)] = [40, 50] := by decide
    simp only [calculateTemperature, hg]
    norm_num [pyRound1, pyRound]
    all_goals decide
  · have hg : getDriveTemperatures
        { name := "M", aggregation_mode := "maximum",
          selected_drive_hashes := ["h1", "h2", "h3"], enabled := true,
          current_temperature := 0, min_temp := 0, max_temp := 0 }
        [("h1", some 40), ("h2", some 50)] = [40, 50] := by decide
    simp only [calculateTemperature, hg]
    norm_num

/-- Witness for C4: the amended statement applied to a monitor with a
stale cached reading and an empty registry and to the S3 average
monitor. -/
theorem C4_drive_monitor_aggregation_witness :
    (calculateTemperature
        { name := "M", aggregation_mode := "average", selected_drive_hashes := ["h1"],
          enabled := true, current_temperature := 45, min_temp := 40, max_temp := 45 }
        ([] : DriveRegistry) = 0
      ∧ updateTemperature
          { name := "M", aggregation_mode := "average", selected_drive_hashes := ["h1"],
            enabled := true, current_temperature := 45, min_temp := 40, max_temp := 45 }
          ([] : DriveRegistry) =
          { name := "M", aggregation_mode := "average", selected_drive_hashes := ["h1"],
            enabled := true, current_temperature := 45, min_temp := 40, max_temp := 45 })
    ∧ calculateTemperature
        { name := "M", aggregation_mode := "average",
          selected_drive_hashes := ["h1", "h2", "h3"], enabled := true,
          current_temperature := 0, min_temp := 0, max_temp := 0 }
        [("h1", some 40), ("h2", some 50)] =
        (if "average" = "maximum" then ([] : List ℚ).foldl max 40
         else pyRound1 (((40 : ℚ) :: [50]).sum / ((40 : ℚ) :: [50]).length)) :=
  ⟨(C4_drive_monitor_aggregation.1
      { name := "M", aggregation_mode := "average", selected_drive_hashes := ["h1"],
        enabled := true, current_temperature := 45, min_temp := 40, max_temp := 45 }
      ([] : DriveRegistry)).1 rfl,
    (C4_drive_monitor_aggregation.1
      { name := "M", aggregation_mode := "average",
        selected_drive_hashes := ["h1", "h2", "h3"], enabled := true,
        current_temperature := 0, min_temp := 0, max_temp := 0 }
      [("h1", some 40), ("h2", some 50)]).2 40 [50] (by decide)⟩

/-- **C1 (counterexample).** A profile with one curve and no readable
sensor yields `0.0` from `FanControlProfile.get_current_speed`, not the
50 % safe default the claim states for both demand computations. -/
theorem C1_profile_demand_counterexample :
    profileGetCurrentSpeed (fun _ => none)
        [{ sensor := none, data := DEFAULT_FAN_CURVE_TEMPLATE_POINTS }] = some 0
    ∧ calculateMaxSpeedFromProfile (fun _ => none)
        [{ sensor := none, data := DEFAULT_FAN_CURVE_TEMPLATE_POINTS }] = 50
    ∧ some (0 : ℚ) ≠ some (50 : ℚ) := by
  refine ⟨by decide, by decide, by decide⟩

/-- **C1 (amended).** For every profile with at least one curve in
which no curve has a readable sensor,
`FanControlService._calculate_max_speed_from_profile` returns the 50 %
safe default, but `FanControlProfile.get_current_speed` returns `0.0`
instead. -/
theorem C1_unreadable_sensors_defaults :
    ∀ (backend : String → Option ℚ) (curves : List FanCurve),
      curves ≠ [] →
      (∀ c ∈ curves, ∀ s, c.sensor = some s → backend s = none) →
      calculateMaxSpeedFromProfile backend curves = 50
      ∧ profileGetCurrentSpeed backend curves = some 0 := by
  intro backend curves hne hun
  have hcurve : ∀ c ∈ curves, FanCurve.getCurrentSpeed backend c = none := by
    intro c hc
    match hs : c.sensor with
    | none => simp [FanCurve.getCurrentSpeed, hs]
    | some s =>
        by_cases hblank : s = ""
        · simp [FanCurve.getCurrentSpeed, hs, hblank]
        · simp [FanCurve.getCurrentSpeed, hs, hblank, hun c hc s hs]
  constructor
  · have hfold : ∀ (cs : List FanCurve), (∀ c ∈ cs, ∀ s, c.sensor = some s → backend s = none) →
        cs.foldl
          (fun (acc : ℚ × ℕ) c =>
            match c.sensor with
            | none => acc
            | some s =>
                if s = "" then acc
                else
                  match backend s with
                  | none => acc
                  | some t =>
                      match interpolateFanSpeed c.data t with
                      | none => acc
                      | some sp => (max acc.1 sp, acc.2 + 1))
          ((0 : ℚ), (0 : ℕ)) = (0, 0) := by
      intro cs hcs
      induction cs with
      | nil => rfl
      | cons c rest ih =>
          have hstep :
              (match c.sensor with
                | none => ((0 : ℚ), (0 : ℕ))
                | some s =>
                    if s = "" then ((0 : ℚ), (0 : ℕ))
                    else
                      match backend s with
                      | none => ((0 : ℚ), (0 : ℕ))
                      | some t =>
                          match interpolateFanSpeed c.data t with
                          | none => ((0 : ℚ), (0 : ℕ))
                          | some sp => (max 0 sp, 0 + 1)) = ((0 : ℚ), (0 : ℕ)) := by
            match hs : c.sensor with
            | none => rfl
            | some s =>
                by_cases hblank : s = ""
                · simp [hblank]
                · simp [hblank, hcs c (by simp) s hs]
          simp only [List.foldl_cons, hstep]
          exact ih (fun c' hc' => hcs c' (by simp [hc']))
    simp only [calculateMaxSpeedFromProfile, if_neg hne, hfold curves hun]
    rfl
  · have hfold : ∀ (cs : List FanCurve), (∀ c ∈ cs, FanCurve.getCurrentSpeed backend c = none) →
        cs.foldl
          (fun (acc : Option ℚ × ℕ) c =>
            match FanCurve.getCurrentSpeed backend c with
            | none => acc
            | some s =>
                match acc.1 with
                | none => (some s, acc.2 + 1)
                | some m => (if m < s then some s else some m, acc.2 + 1))
          (none, 0) = (none, 0) := by
      intro cs hcs
      induction cs with
      | nil => rfl
      | cons c rest ih =>
          simp only [List.foldl_cons, hcs c (by simp)]
          exact ih (fun c' hc' => hcs c' (by simp [hc']))
    simp only [profileGetCurrentSpeed, hfold curves hcurve]
    simp [hne]

/-- Witness for C1: a one-curve profile with no sensor under an empty
backend. -/
theorem C1_unreadable_sensors_defaults_witness :
    calculateMaxSpeedFromProfile (fun _ => none)
        [{ sensor := none, data := DEFAULT_FAN_CURVE_TEMPLATE_POINTS }] = 50
    ∧ profileGetCurrentSpeed (fun _ => none)
        [{ sensor := none, data := DEFAULT_FAN_CURVE_TEMPLATE_POINTS }] = some 0 :=
  C1_unreadable_sensors_defaults (fun _ => none)
    [{ sensor := none, data := DEFAULT_FAN_CURVE_TEMPLATE_POINTS }]
    (by decide) (by intro c hc s hs; rfl)

/-! #### Interpolation lemmas -/

/-- A strictly increasing point list is sorted by `x`. -/
lemma strictX_sorted {l : List (ℚ × ℚ)} (h : StrictXIncreasing l) :
    List.Sorted (fun a b : ℚ × ℚ => a.1 ≤ b.1) l := by
  haveI : IsTrans (ℚ × ℚ) (fun a b : ℚ × ℚ => a.1 < b.1) :=
    ⟨fun a b c hab hbc => lt_trans hab hbc⟩
  exact (List.chain'_iff_pairwise.mp h).imp fun hab => le_of_lt hab

/-- Sorting a strictly increasing point list is the identity. -/
lemma strictX_insertionSort_eq {l : List (ℚ × ℚ)} (h : StrictXIncreasing l) :
    List.insertionSort (fun a b : ℚ × ℚ => a.1 ≤ b.1) l = l :=
  (strictX_sorted h).insertionSort_eq

/-- Strictly increasing `x` coordinates, by positional index. -/
lemma strictX_getD_lt {l : List (ℚ × ℚ)} (h : StrictXIncreasing l) {i j : ℕ}
    (hij : i < j) (hj : j < l.length) :
    (l.getD i (0, 0)).1 < (l.getD j (0, 0)).1 := by
  haveI : IsTrans (ℚ × ℚ) (fun a b : ℚ × ℚ => a.1 < b.1) :=
    ⟨fun a b c hab hbc => lt_trans hab hbc⟩
  have hp := List.chain'_iff_pairwise.mp h
  have hi : i < l.length := lt_trans hij hj
  rw [List.getD_eq_get? l _, List.get?_eq_get hi, List.getD_eq_get? l _, List.get?_eq_get hj]
  exact List.pairwise_iff_get.mp hp ⟨i, hi⟩ ⟨j, hj⟩ hij

/-- `getLast` as positional access. -/
lemma getLast_eq_getD {l : List (ℚ × ℚ)} (h : l ≠ []) :
    l.getLast h = l.getD (l.length - 1) (0, 0) := by
  have hlen : l.length - 1 < l.length := by
    cases l with
    | nil => exact absurd rfl h
    | cons p rest => simp
  rw [List.getLast_eq_get, List.getD_eq_get? l _, List.get?_eq_get hlen]
  rfl

/-- On a strictly increasing list with head `x` below the query, the
interval loop returns the interpolation formula of any interval that
contains the query. -/
lemma findInterval_spec :
    ∀ (l : List (ℚ × ℚ)) (T : ℚ), StrictXIncreasing l →
      ∀ i : ℕ, i + 1 < l.length →
        (l.getD 0 (0, 0)).1 < T →
        (l.getD i (0, 0)).1 ≤ T → T ≤ (l.getD (i + 1) (0, 0)).1 →
        findInterval l T = some (pyRound1 ((l.getD i (0, 0)).2 +
          ((l.getD (i + 1) (0, 0)).2 - (l.getD i (0, 0)).2) /
            ((l.getD (i + 1) (0, 0)).1 - (l.getD i (0, 0)).1) * (T - (l.getD i (0, 0)).1))) := by
  intro l
  induction l with
  | nil => intro T _ i hi; simp at hi
  | cons p1 rest ih =>
      cases rest with
      | nil => intro T _ i hi; simp at hi
      | cons p2 rest' =>
          intro T hchain i hi h0 h1 h2
          have hx12 : p1.1 < p2.1 := (List.chain'_cons.mp hchain).1
          have hne : ¬p2.1 = p1.1 := ne_of_gt hx12
          simp only [List.getD_cons_zero] at h0
          by_cases hcond : p1.1 ≤ T ∧ T ≤ p2.1
          · cases i with
            | zero =>
                simp only [List.getD_cons_zero, List.getD_cons_succ] at h1 h2 ⊢
                simp only [findInterval, if_pos hcond, if_neg hne]
            | succ k =>
                have hk : k = 0 := by
                  by_contra hk0
                  have h11 : 1 < k + 1 := by omega
                  have hlt := strictX_getD_lt hchain h11 (by omega : k + 1 < (p1 :: p2 :: rest').length)
                  simp only [List.getD_cons_succ, List.getD_cons_zero] at hlt h1
                  exact absurd hcond.2 (not_le.mpr (lt_of_lt_of_le hlt h1))
                subst hk
                simp only [List.getD_cons_succ, List.getD_cons_zero] at h1 h2 ⊢
                have hT : T = p2.1 := le_antisymm hcond.2 h1
                have hx23 : p2.1 < (rest'.getD 0 (0, 0)).1 := by
                  have := strictX_getD_lt hchain (by omega : 1 < 2)
                    (by simpa using hi)
                  simpa using this
                simp only [findInterval, if_pos hcond, if_neg hne]
                congr 1
                rw [hT]
                have hne' : p2.1 - p1.1 ≠ 0 := sub_ne_zero.mpr (ne_of_gt hx12)
                have hne'' : (rest'.getD 0 (0, 0)).1 - p2.1 ≠ 0 :=
                  sub_ne_zero.mpr (ne_of_gt hx23)
                field_simp
          · cases i with
            | zero =>
                simp only [List.getD_cons_zero, List.getD_cons_succ] at h1 h2
                exact absurd ⟨le_of_lt h0, h2⟩ hcond
            | succ k =>
                have hp2T : p2.1 < T := by
                  rcases not_and_or.mp hcond with hbad | hgt
                  · exact absurd (le_of_lt h0) hbad
                  · exact not_le.mp hgt
                simp only [List.getD_cons_succ] at h1 h2
                have hrec := ih T hchain.tail k (by simpa using hi)
                  (by simpa using hp2T) h1 h2
                simp only [findInterval, if_neg hcond]
                exact hrec

/-- `interpolate_fan_speed` on a nonempty sorted list. -/
lemma interpolateFanSpeed_cons {p : ℚ × ℚ} {rest : List (ℚ × ℚ)}
    (h : StrictXIncreasing (p :: rest)) (T : ℚ) :
    interpolateFanSpeed (p :: rest) T =
      if T ≤ p.1 then some p.2
      else if ((p :: rest).getLast (List.cons_ne_nil p rest)).1 ≤ T then
        some (((p :: rest).getLast (List.cons_ne_nil p rest)).2)
      else findInterval (p :: rest) T := by
  simp only [interpolateFanSpeed, strictX_insertionSort_eq h]

/-- Flat extrapolation below the first point. -/
lemma interpolate_low {l : List (ℚ × ℚ)} (h : StrictXIncreasing l) (hne : l ≠ []) (T : ℚ)
    (hT : T ≤ (l.getD 0 (0, 0)).1) :
    interpolateFanSpeed l T = some (l.getD 0 (0, 0)).2 := by
  cases l with
  | nil => exact absurd rfl hne
  | cons p rest =>
      rw [interpolateFanSpeed_cons h]
      simp only [List.getD_cons_zero] at hT ⊢
      simp [if_pos hT]

/-- Flat extrapolation above the last point. -/
lemma interpolate_high {l : List (ℚ × ℚ)} (h : StrictXIncreasing l) (hlen : 2 ≤ l.length)
    (T : ℚ) (hT : (l.getD (l.length - 1) (0, 0)).1 ≤ T) :
    interpolateFanSpeed l T = some (l.getD (l.length - 1) (0, 0)).2 := by
  cases l with
  | nil => simp at hlen
  | cons p rest =>
      have hx : (p :: rest).getD 0 (0, 0) = p := rfl
      have hlast : ((p :: rest).getD ((p :: rest).length - 1) (0, 0)).1 ≤ T := hT
      have h0last : ((p :: rest).getD 0 (0, 0)).1 < ((p :: rest).getD ((p :: rest).length - 1) (0, 0)).1 := by
        apply strictX_getD_lt h
        · omega
        · have : 2 ≤ (p :: rest).length := hlen
          omega
      rw [interpolateFanSpeed_cons h]
      rw [hx] at h0last
      have hTp : ¬T ≤ p.1 := not_le.mpr (lt_of_lt_of_le h0last hT)
      rw [getLast_eq_getD (List.cons_ne_nil p rest), if_neg hTp, if_pos hT]

/-- The interior interpolation formula. -/
lemma interpolate_interior {l : List (ℚ × ℚ)} (h : StrictXIncreasing l) (T : ℚ) (i : ℕ)
    (hi : i + 1 < l.length)
    (h0 : (l.getD 0 (0, 0)).1 < T) (hlast : T < (l.getD (l.length - 1) (0, 0)).1)
    (h1 : (l.getD i (0, 0)).1 ≤ T) (h2 : T ≤ (l.getD (i + 1) (0, 0)).1) :
    interpolateFanSpeed l T = some (pyRound1 ((l.getD i (0, 0)).2 +
      ((l.getD (i + 1) (0, 0)).2 - (l.getD i (0, 0)).2) /
        ((l.getD (i + 1) (0, 0)).1 - (l.getD i (0, 0)).1) * (T - (l.getD i (0, 0)).1))) := by
  cases l with
  | nil => simp at hi
  | cons p rest =>
      rw [interpolateFanSpeed_cons h]
      have hTp : ¬T ≤ p.1 := not_le.mpr h0
      have hTlast : ¬((p :: rest).getLast (List.cons_ne_nil p rest)).1 ≤ T := by
        rw [getLast_eq_getD (List.cons_ne_nil p rest)]
        exact not_le.mpr hlast
      simp only [if_neg hTp, if_neg hTlast]
      exact findInterval_spec (p :: rest) T h i hi h0 h1 h2

/-- **C5 (counterexample).** The evaluator does not return `yᵢ` at
every breakpoint: for the strictly increasing curve
`[(0,0), (10,0.04), (20,1)]` the query `T = 10` lands on the breakpoint
`x₁ = 10` with `y₁ = 0.04`, but the code rounds the interpolated value
to one decimal and returns `0.0 ≠ 0.04`. -/
theorem C5_breakpoint_counterexample :
    StrictXIncreasing [((0 : ℚ), (0 : ℚ)), (10, 1/25), (20, 1)]
    ∧ 2 ≤ ([((0 : ℚ), (0 : ℚ)), (10, 1/25), (20, 1)]).length
    ∧ interpolateFanSpeed [((0 : ℚ), (0 : ℚ)), (10, 1/25), (20, 1)] 10 = some 0
    ∧ (([((0 : ℚ), (0 : ℚ)), (10, 1/25), (20, 1)]).getD 1 (0, 0)).2 = 1/25
    ∧ (0 : ℚ) ≠ 1/25 := by
  refine ⟨?_, by decide, ?_, rfl, by norm_num⟩
  · constructor
    · norm_num
    · constructor
      · norm_num
      · exact List.chain'_singleton _
  · norm_num [interpolateFanSpeed, List.insertionSort, List.orderedInsert, findInterval,
      List.getLast, pyRound1, pyRound]

/-- **C5 (amended).** For every curve with at least two points and
strictly increasing `x`: queries at or below `x₀` return `y₀` exactly,
queries at or above `xₙ₋₁` return `yₙ₋₁` exactly, and interior queries
return `yᵢ + (yᵢ₊₁ − yᵢ)·(T − xᵢ)/(xᵢ₊₁ − xᵢ)` rounded to 0.1 for any
interval with `xᵢ ≤ T ≤ xᵢ₊₁`; consequently `eval(xᵢ) = yᵢ` holds
exactly at the first and last breakpoints, while interior breakpoints
return `yᵢ` rounded to 0.1 (equal to `yᵢ` whenever `yᵢ` is a multiple
of 0.1); the curve `[(30,50),(80,100)]` evaluates to 50, 50, 75.0, 100,
100 at `T` = 25, 30, 55, 80, 95. -/
theorem C5_piecewise_linear_eval :
    (∀ (l : List (ℚ × ℚ)) (T : ℚ), 2 ≤ l.length → StrictXIncreasing l →
      (T ≤ (l.getD 0 (0, 0)).1 → interpolateFanSpeed l T = some (l.getD 0 (0, 0)).2)
      ∧ ((l.getD (l.length - 1) (0, 0)).1 ≤ T →
          interpolateFanSpeed l T = some (l.getD (l.length - 1) (0, 0)).2)
      ∧ (∀ i : ℕ, i + 1 < l.length →
          (l.getD 0 (0, 0)).1 < T → T < (l.getD (l.length - 1) (0, 0)).1 →
          (l.getD i (0, 0)).1 ≤ T → T ≤ (l.getD (i + 1) (0, 0)).1 →
          interpolateFanSpeed l T = some (pyRound1 ((l.getD i (0, 0)).2 +
            ((l.getD (i + 1) (0, 0)).2 - (l.getD i (0, 0)).2) /
              ((l.getD (i + 1) (0, 0)).1 - (l.getD i (0, 0)).1) * (T - (l.getD i (0, 0)).1))))
      ∧ (∀ i : ℕ, i < l.length →
          interpolateFanSpeed l ((l.getD i (0, 0)).1) =
            some (if i = 0 then (l.getD 0 (0, 0)).2
              else if i = l.length - 1 then (l.getD i (0, 0)).2
              else pyRound1 ((l.getD i (0, 0)).2))))
    ∧ interpolateFanSpeed [((30 : ℚ), (50 : ℚ)), (80, 100)] 25 = some 50
    ∧ interpolateFanSpeed [((30 : ℚ), (50 : ℚ)), (80, 100)] 30 = some 50
    ∧ interpolateFanSpeed [((30 : ℚ), (50 : ℚ)), (80, 100)] 55 = some 75
    ∧ interpolateFanSpeed [((30 : ℚ), (50 : ℚ)), (80, 100)] 80 = some 100
    ∧ interpolateFanSpeed [((30 : ℚ), (50 : ℚ)), (80, 100)] 95 = some 100 := by
  constructor
  · intro l T hlen h
    have hne : l ≠ [] := by
      cases l with
      | nil => simp at hlen
      | cons p rest => exact List.cons_ne_nil p rest
    refine ⟨fun hT => interpolate_low h hne T hT,
      fun hT => interpolate_high h hlen T hT,
      fun i hi h0 hlast h1 h2 => interpolate_interior h T i hi h0 hlast h1 h2,
      fun i hilen => ?_⟩
    by_cases hi0 : i = 0
    · subst hi0
      rw [if_pos rfl]
      exact interpolate_low h hne _ le_rfl
    · by_cases hilast : i = l.length - 1
      · rw [if_neg hi0, if_pos hilast]
        subst hilast
        exact interpolate_high h hlen _ le_rfl
      · rw [if_neg hi0, if_neg hilast]
        have hi1 : i + 1 < l.length := by omega
        have h0i : (l.getD 0 (0, 0)).1 < (l.getD i (0, 0)).1 :=
          strictX_getD_lt h (by omega) (by omega)
        have hilt : (l.getD i (0, 0)).1 < (l.getD (l.length - 1) (0, 0)).1 :=
          strictX_getD_lt h (by omega) (by omega)
        have hii1 : (l.getD i (0, 0)).1 < (l.getD (i + 1) (0, 0)).1 :=
          strictX_getD_lt h (by omega) hi1
        have := interpolate_interior h ((l.getD i (0, 0)).1) i hi1 h0i hilt le_rfl
          (le_of_lt hii1)
        rw [this]
        congr 1
        rw [sub_self, mul_zero, add_zero]
  all_goals
    norm_num [interpolateFanSpeed, List.insertionSort, List.orderedInsert, findInterval,
      List.getLast, pyRound1, pyRound]

/-- Witness for C5 on the S1 curve: flat extrapolation below `x₀`, flat
extrapolation above `x₁`, and the breakpoint value at the last index. -/
theorem C5_piecewise_linear_eval_witness :
    interpolateFanSpeed [((30 : ℚ), (50 : ℚ)), (80, 100)] 25 =
      some (([((30 : ℚ), (50 : ℚ)), (80, 100)]).getD 0 (0, 0)).2
    ∧ interpolateFanSpeed [((30 : ℚ), (50 : ℚ)), (80, 100)] 95 =
      some (([((30 : ℚ), (50 : ℚ)), (80, 100)]).getD
        (([((30 : ℚ), (50 : ℚ)), (80, 100)]).length - 1) (0, 0)).2
    ∧ interpolateFanSpeed [((30 : ℚ), (50 : ℚ)), (80, 100)]
        (([((30 : ℚ), (50 : ℚ)), (80, 100)]).getD 1 (0, 0)).1 =
      some (if 1 = 0 then (([((30 : ℚ), (50 : ℚ)), (80, 100)]).getD 0 (0, 0)).2
        else if 1 = ([((30 : ℚ), (50 : ℚ)), (80, 100)]).length - 1 then
          (([((30 : ℚ), (50 : ℚ)), (80, 100)]).getD 1 (0, 0)).2
        else pyRound1 ((([((30 : ℚ), (50 : ℚ)), (80, 100)]).getD 1 (0, 0)).2)) :=
  ⟨(C5_piecewise_linear_eval.1 [((30 : ℚ), (50 : ℚ)), (80, 100)] 25 (by decide)
      (by constructor <;> norm_num)).1 (by norm_num),
    (C5_piecewise_linear_eval.1 [((30 : ℚ), (50 : ℚ)), (80, 100)] 95 (by decide)
      (by constructor <;> norm_num)).2.1 (by norm_num),
    (C5_piecewise_linear_eval.1 [((30 : ℚ), (50 : ℚ)), (80, 100)]
      (([((30 : ℚ), (50 : ℚ)), (80, 100)]).getD 1 (0, 0)).1 (by decide)
      (by constructor <;> norm_num)).2.2.2 1 (by decide)⟩

/-! #### Persistence lemmas -/

namespace Persist

/-- Replaying a dict comprehension over pairwise distinct keys appends
the pairs in order. -/
lemma pyDict_go (l : List (String × J)) :
    ∀ acc : List (String × J),
      (∀ kv ∈ l, ∀ kv' ∈ acc, kv'.1 ≠ kv.1) → (l.map Prod.fst).Nodup →
      l.foldl pyDictInsert acc = acc ++ l := by
  induction l with
  | nil => intro acc _ _; simp
  | cons kv rest ih =>
      intro acc hdisj hnd
      have hnew : acc.any (fun x => x.1 = kv.1) = false := by
        simp only [List.any_eq_false, decide_eq_true_eq]
        intro x hx
        exact hdisj kv (List.mem_cons_self kv rest) x hx
      have hstep : pyDictInsert acc kv = acc ++ [kv] := by
        simp [pyDictInsert, hnew]
      have hnd2 : (kv.1 :: rest.map Prod.fst).Nodup := by simpa using hnd
      have hkey : kv.1 ∉ rest.map Prod.fst := (List.nodup_cons.mp hnd2).1
      have hdisj' : ∀ kv' ∈ rest, ∀ x ∈ acc ++ [kv], x.1 ≠ kv'.1 := by
        intro kv' hkv' x hx
        rcases List.mem_append.mp hx with hx | hx
        · exact hdisj kv' (List.mem_cons_of_mem kv hkv') x hx
        · have hxkv : x = kv := List.mem_singleton.mp hx
          subst hxkv
          intro he
          exact hkey (he ▸ List.mem_map_of_mem Prod.fst hkv')
      have hnd' : (rest.map Prod.fst).Nodup := (List.nodup_cons.mp hnd2).2
      calc (kv :: rest).foldl pyDictInsert acc
          = rest.foldl pyDictInsert (acc ++ [kv]) := by rw [List.foldl_cons, hstep]
        _ = (acc ++ [kv]) ++ rest := ih (acc ++ [kv]) hdisj' hnd'
        _ = acc ++ kv :: rest := by simp

/-- A dict comprehension over distinct keys is the identity. -/
lemma pyDict_self (l : List (String × J)) (hnd : (l.map Prod.fst).Nodup) :
    pyDict l = l := by
  have := pyDict_go l [] (by simp) hnd
  simpa [pyDict] using this

/-- Folding id-keyed inserts of curves with fresh distinct ids appends
them in order. -/
lemma upsert_foldl (cs : List FanCurve) :
    ∀ acc : List FanCurve,
      (∀ c ∈ cs, ∀ x ∈ acc, x.id ≠ c.id) → (cs.map FanCurve.id).Nodup →
      cs.foldl upsertById acc = acc ++ cs := by
  induction cs with
  | nil => intro acc _ _; simp
  | cons c rest ih =>
      intro acc hdisj hnd
      have hnew : acc.any (fun x => x.id = c.id) = false := by
        simp only [List.any_eq_false, decide_eq_true_eq]
        intro x hx
        exact hdisj c (List.mem_cons_self c rest) x hx
      have hstep : upsertById acc c = acc ++ [c] := by
        simp [upsertById, hnew]
      have hnd2 : (c.id :: rest.map FanCurve.id).Nodup := by simpa using hnd
      have hkey : c.id ∉ rest.map FanCurve.id := (List.nodup_cons.mp hnd2).1
      have hdisj' : ∀ c' ∈ rest, ∀ x ∈ acc ++ [c], x.id ≠ c'.id := by
        intro c' hc' x hx
        rcases List.mem_append.mp hx with hx | hx
        · exact hdisj c' (List.mem_cons_of_mem c hc') x hx
        · have hxc : x = c := List.mem_singleton.mp hx
          subst hxc
          intro he
          exact hkey (he ▸ List.mem_map_of_mem FanCurve.id hc')
      have hnd' : (rest.map FanCurve.id).Nodup := (List.nodup_cons.mp hnd2).2
      calc (c :: rest).foldl upsertById acc
          = rest.foldl upsertById (acc ++ [c]) := by rw [List.foldl_cons, hstep]
        _ = (acc ++ [c]) ++ rest := ih (acc ++ [c]) hdisj' hnd'
        _ = acc ++ c :: rest := by simp

/-- Loading a saved curve record restores the curve. -/
lemma curve_from_to (fresh : String) (c : FanCurve) :
    FanCurve.from_json fresh c.to_json = c := by
  simp [FanCurve.from_json, FanCurve.to_json, J.getStrD, J.get, List.lookup]

/-- Folding the loader over the enumerated saved curve records replays
the id-keyed inserts of the original curves. -/
lemma enum_fold_curves (freshIds : ℕ → String) (cs : List FanCurve) :
    ∀ (n : ℕ) (acc : List FanCurve),
      (List.enumFrom n (cs.map fun c => (c.name, c.to_json))).foldl
        (fun acc (ikv : ℕ × String × J) =>
          upsertById acc (FanCurve.from_json (freshIds ikv.1) ikv.2.2)) acc
      = cs.foldl upsertById acc := by
  induction cs with
  | nil => intro n acc; rfl
  | cons c rest ih =>
      intro n acc
      simp only [List.map_cons, List.enumFrom, List.foldl_cons]
      rw [curve_from_to]
      exact ih (n + 1) (upsertById acc c)

/-- Loading a saved profile record restores the profile, provided its
curve names (the dict keys of the saved form) and curve ids (the dict
keys of the in-memory form) are distinct. -/
lemma profile_from_to (fresh : String) (freshIds : ℕ → String) (p : FanControlProfile)
    (hname : (p.fan_curves.map FanCurve.name).Nodup)
    (hid : (p.fan_curves.map FanCurve.id).Nodup) :
    FanControlProfile.from_json fresh freshIds p.to_json = p := by
  have hkeys : ((p.fan_curves.map fun c => (c.name, c.to_json)).map Prod.fst).Nodup := by
    simpa [List.map_map, Function.comp] using hname
  have e1 : ("id" == "id") = true := rfl
  have e2 : ("name" == "id") = false := rfl
  have e3 : ("name" == "name") = true := rfl
  have e4 : ("curves" == "id") = false := rfl
  have e5 : ("curves" == "name") = false := rfl
  have e6 : ("curves" == "curves") = true := rfl
  simp only [FanControlProfile.from_json, FanControlProfile.to_json, J.getStrD, J.get,
    List.lookup, pyDict_self _ hkeys, e1, e2, e3, e4, e5, e6, List.enum_eq_enumFrom,
    enum_fold_curves freshIds p.fan_curves]
  rw [upsert_foldl p.fan_curves [] (by simp) hid]
  simp

/-- Loading a saved document restores the profile map, provided each
profile's curve names and curve ids are distinct. -/
lemma load_save (ps : List (String × FanControlProfile)) (τ : String)
    (freshP : ℕ → String) (freshC : ℕ → ℕ → String)
    (h : ∀ e ∈ ps, (e.2.fan_curves.map FanCurve.name).Nodup
        ∧ (e.2.fan_curves.map FanCurve.id).Nodup) :
    load_profiles freshP freshC (save_profiles ps τ) = ps := by
  simp only [load_profiles, save_profiles, J.get, List.lookup]
  rw [List.enum_eq_enumFrom]
  have main : ∀ (n : ℕ) (qs : List (String × FanControlProfile)),
      (∀ e ∈ qs, (e.2.fan_curves.map FanCurve.name).Nodup
        ∧ (e.2.fan_curves.map FanCurve.id).Nodup) →
      (List.enumFrom n (qs.map fun kv => (kv.1, kv.2.to_json))).map
        (fun (ikv : ℕ × String × J) =>
          (ikv.2.1, FanControlProfile.from_json (freshP ikv.1) (freshC ikv.1) ikv.2.2))
        = qs := by
    intro n qs
    induction qs generalizing n with
    | nil => intro _; rfl
    | cons kv rest ih =>
        intro hq
        simp only [List.map_cons, List.enumFrom, List.map]
        rw [profile_from_to (freshP n) (freshC n) kv.2 (hq kv (by simp)).1 (hq kv (by simp)).2]
        rw [ih (n + 1) (fun e he => hq e (List.mem_cons_of_mem kv he))]
  exact main 0 ps h

end Persist

/-- **C8 (counterexample).** Unknown fields are not preserved: loading
the document `{"profiles": {}, "saved_at": "t", "color": 7}` and saving
it again (even with the same timestamp) drops the unknown `color`
field, so `save(load(doc)) ≠ doc`. -/
theorem C8_roundtrip_counterexample :
    Persist.save_profiles
        (Persist.load_profiles (fun _ => "p") (fun _ _ => "c")
          (J.obj [("profiles", J.obj []), ("saved_at", J.str "t"), ("color", J.num 7)])) "t"
      = J.obj [("profiles", J.obj []), ("saved_at", J.str "t")]
    ∧ J.obj [("profiles", J.obj []), ("saved_at", J.str "t")]
      ≠ J.obj [("profiles", J.obj []), ("saved_at", J.str "t"), ("color", J.num 7)] := by
  constructor
  · rfl
  · intro h
    have := congrArg (fun j => match j with | J.obj fields => fields.length | _ => 0) h
    simp at this

/-- **C8 (amended).** The round-trip `save(load(doc))` reproduces `doc`
exactly for documents that `save_profiles` itself produces (with the
timestamp updated to the new save time), given that each profile's
curve names and curve ids are distinct; unknown fields and the old
`saved_at` are rewritten or dropped, so the identity does not extend to
arbitrary documents. -/
theorem C8_persistence_roundtrip :
    ∀ (ps : List (String × Persist.FanControlProfile)) (τ τ' : String)
      (freshP : ℕ → String) (freshC : ℕ → ℕ → String),
      (∀ e ∈ ps, (e.2.fan_curves.map Persist.FanCurve.name).Nodup
          ∧ (e.2.fan_curves.map Persist.FanCurve.id).Nodup) →
      Persist.load_profiles freshP freshC (Persist.save_profiles ps τ) = ps
      ∧ Persist.save_profiles
          (Persist.load_profiles freshP freshC (Persist.save_profiles ps τ)) τ'
        = Persist.save_profiles ps τ' := by
  intro ps τ τ' freshP freshC h
  have hls := Persist.load_save ps τ freshP freshC h
  exact ⟨hls, by rw [hls]⟩

/-- Witness for C8: a one-profile, one-curve store round-trips. -/
theorem C8_persistence_roundtrip_witness :
    Persist.load_profiles (fun _ => "p") (fun _ _ => "c")
        (Persist.save_profiles
          [("Fan Profile 1",
            { id := "pid", name := "Fan Profile 1",
              fan_curves := [{ id := "cid", name := "Fan Curve 1", sensor := J.null,
                               data := Persist.DEFAULT_FAN_CURVE_TEMPLATE }] })] "t")
      = [("Fan Profile 1",
          { id := "pid", name := "Fan Profile 1",
            fan_curves := [{ id := "cid", name := "Fan Curve 1", sensor := J.null,
                             data := Persist.DEFAULT_FAN_CURVE_TEMPLATE }] })] :=
  (C8_persistence_roundtrip
    [("Fan Profile 1",
      { id := "pid", name := "Fan Profile 1",
        fan_curves := [{ id := "cid", name := "Fan Curve 1", sensor := J.null,
                         data := Persist.DEFAULT_FAN_CURVE_TEMPLATE }] })] "t" "t"
    (fun _ => "p") (fun _ _ => "c")
    (by intro e he; simp at he; subst he; simp)).1

/-! #### Arbitration lemmas -/

namespace Arb

/-- Effect of updating one thread's location on a location count. -/
lemma countP_set_add (p : Loc → Bool) :
    ∀ (l : List Loc) (i : ℕ) (a b : Loc), l.get? i = some b →
      (l.set i a).countP p + (if p b = true then 1 else 0)
        = l.countP p + (if p a = true then 1 else 0) := by
  intro l
  induction l with
  | nil => intro i a b hb; simp at hb
  | cons x xs ih =>
      intro i a b hb
      cases i with
      | zero =>
          have hbx : x = b := by simpa using hb
          subst hbx
          simp only [List.set_cons_zero, List.countP_cons]
          omega
      | succ k =>
          have hb' : xs.get? k = some b := by simpa using hb
          simp only [List.set_cons_succ, List.countP_cons]
          have := ih k a b hb'
          omega

/-- A thread observed at a location contributes to the matching count. -/
lemma countP_pos_of_get (p : Loc → Bool) {l : List Loc} {i : ℕ} {b : Loc}
    (hb : l.get? i = some b) (hp : p b = true) : 0 < l.countP p :=
  List.countP_pos.mpr ⟨b, List.get?_mem hb, hp⟩

/-- The invariant holds in the initial state. -/
lemma inv_init (n : ℕ) : Inv (mkInit n) := by
  have hz : ∀ p : Loc → Bool, p .start = false → (List.replicate n Loc.start).countP p = 0 := by
    intro p hp
    apply List.countP_eq_zero.mpr
    intro a ha
    rw [List.eq_of_mem_replicate ha, hp]
    simp
  refine ⟨?_, ?_, ?_, ?_⟩ <;> simp only [mkInit]
  · rw [hz holdsUpd rfl]
    simp
  · rw [hz holdsBoard rfl]
    simp
  · rw [hz countedWin rfl]
  · rw [hz wrote rfl]

/-- Each interleaving step preserves the invariant. -/
lemma inv_step {s s' : Sys} (h : Step s s') (hs : Inv s) : Inv s' := by
  obtain ⟨hU, hB, hW, hR⟩ := hs
  cases h with
  | tryAcquireWin i hget hupd =>
      have h1 := countP_set_add holdsUpd s.threads i .preWait .start hget
      have h2 := countP_set_add holdsBoard s.threads i .preWait .start hget
      have h3 := countP_set_add countedWin s.threads i .preWait .start hget
      have h4 := countP_set_add wrote s.threads i .preWait .start hget
      simp only [holdsUpd, holdsBoard, countedWin, wrote] at h1 h2 h3 h4
      simp only [Bool.false_eq_true, Bool.true_eq_false, eq_self_iff_true, if_false, if_true,
        Nat.add_zero] at h1 h2 h3 h4
      rw [hupd] at hU
      simp only [eq_self_iff_true, if_true] at hU
      refine ⟨?_, ?_, ?_, ?_⟩ <;>
        try simp only [Bool.false_eq_true, Bool.true_eq_false, eq_self_iff_true, if_false, if_true]
      all_goals try rw [← hB]
      all_goals omega
  | tryAcquireFail i hget hupd =>
      have h1 := countP_set_add holdsUpd s.threads i .dropped .start hget
      have h2 := countP_set_add holdsBoard s.threads i .dropped .start hget
      have h3 := countP_set_add countedWin s.threads i .dropped .start hget
      have h4 := countP_set_add wrote s.threads i .dropped .start hget
      simp only [holdsUpd, holdsBoard, countedWin, wrote] at h1 h2 h3 h4
      simp only [Bool.false_eq_true, Bool.true_eq_false, eq_self_iff_true, if_false, if_true,
        Nat.add_zero] at h1 h2 h3 h4
      refine ⟨?_, ?_, ?_, ?_⟩ <;>
        try simp only [Bool.false_eq_true, Bool.true_eq_false, eq_self_iff_true, if_false, if_true]
      all_goals try rw [← hU]
      all_goals try rw [← hB]
      all_goals omega
  | acquireBoardWait i hget hbrd =>
      have h1 := countP_set_add holdsUpd s.threads i .waitHeld .preWait hget
      have h2 := countP_set_add holdsBoard s.threads i .waitHeld .preWait hget
      have h3 := countP_set_add countedWin s.threads i .waitHeld .preWait hget
      have h4 := countP_set_add wrote s.threads i .waitHeld .preWait hget
      simp only [holdsUpd, holdsBoard, countedWin, wrote] at h1 h2 h3 h4
      simp only [Bool.false_eq_true, Bool.true_eq_false, eq_self_iff_true, if_false, if_true,
        Nat.add_zero] at h1 h2 h3 h4
      rw [hbrd] at hB
      simp only [eq_self_iff_true, if_true] at hB
      refine ⟨?_, ?_, ?_, ?_⟩ <;>
        try simp only [Bool.false_eq_true, Bool.true_eq_false, eq_self_iff_true, if_false, if_true]
      all_goals try rw [← hU]
      all_goals omega
  | releaseBoardWait i hget =>
      have h1 := countP_set_add holdsUpd s.threads i .preUpdate .waitHeld hget
      have h2 := countP_set_add holdsBoard s.threads i .preUpdate .waitHeld hget
      have h3 := countP_set_add countedWin s.threads i .preUpdate .waitHeld hget
      have h4 := countP_set_add wrote s.threads i .preUpdate .waitHeld hget
      simp only [holdsUpd, holdsBoard, countedWin, wrote] at h1 h2 h3 h4
      simp only [Bool.false_eq_true, Bool.true_eq_false, eq_self_iff_true, if_false, if_true,
        Nat.add_zero] at h1 h2 h3 h4
      have hpos := countP_pos_of_get holdsBoard hget (by rfl)
      have hbf : s.boardSem = false := by
        cases hbv : s.boardSem
        · rfl
        · exfalso
          rw [hbv] at hB
          simp only [eq_self_iff_true, if_true] at hB
          omega
      rw [hbf] at hB
      simp only [Bool.false_eq_true, if_false] at hB
      refine ⟨?_, ?_, ?_, ?_⟩ <;>
        try simp only [Bool.false_eq_true, Bool.true_eq_false, eq_self_iff_true, if_false, if_true]
      all_goals try rw [← hU]
      all_goals omega
  | acquireBoardUpdate i hget hbrd =>
      have h1 := countP_set_add holdsUpd s.threads i .inFlight .preUpdate hget
      have h2 := countP_set_add holdsBoard s.threads i .inFlight .preUpdate hget
      have h3 := countP_set_add countedWin s.threads i .inFlight .preUpdate hget
      have h4 := countP_set_add wrote s.threads i .inFlight .preUpdate hget
      simp only [holdsUpd, holdsBoard, countedWin, wrote] at h1 h2 h3 h4
      simp only [Bool.false_eq_true, Bool.true_eq_false, eq_self_iff_true, if_false, if_true,
        Nat.add_zero] at h1 h2 h3 h4
      rw [hbrd] at hB
      simp only [eq_self_iff_true, if_true] at hB
      refine ⟨?_, ?_, ?_, ?_⟩ <;>
        try simp only [Bool.false_eq_true, Bool.true_eq_false, eq_self_iff_true, if_false, if_true]
      all_goals try rw [← hU]
      all_goals omega
  | completeWrite i hget =>
      have h1 := countP_set_add holdsUpd s.threads i .postWrite .inFlight hget
      have h2 := countP_set_add holdsBoard s.threads i .postWrite .inFlight hget
      have h3 := countP_set_add countedWin s.threads i .postWrite .inFlight hget
      have h4 := countP_set_add wrote s.threads i .postWrite .inFlight hget
      simp only [holdsUpd, holdsBoard, countedWin, wrote] at h1 h2 h3 h4
      simp only [Bool.false_eq_true, Bool.true_eq_false, eq_self_iff_true, if_false, if_true,
        Nat.add_zero] at h1 h2 h3 h4
      have hpos := countP_pos_of_get holdsBoard hget (by rfl)
      have hbf : s.boardSem = false := by
        cases hbv : s.boardSem
        · rfl
        · exfalso
          rw [hbv] at hB
          simp only [eq_self_iff_true, if_true] at hB
          omega
      rw [hbf] at hB
      simp only [Bool.false_eq_true, if_false] at hB
      refine ⟨?_, ?_, ?_, ?_⟩ <;>
        try simp only [Bool.false_eq_true, Bool.true_eq_false, eq_self_iff_true, if_false, if_true]
      all_goals try rw [← hU]
      all_goals omega
  | releaseUpd i hget =>
      have h1 := countP_set_add holdsUpd s.threads i .done .postWrite hget
      have h2 := countP_set_add holdsBoard s.threads i .done .postWrite hget
      have h3 := countP_set_add countedWin s.threads i .done .postWrite hget
      have h4 := countP_set_add wrote s.threads i .done .postWrite hget
      simp only [holdsUpd, holdsBoard, countedWin, wrote] at h1 h2 h3 h4
      simp only [Bool.false_eq_true, Bool.true_eq_false, eq_self_iff_true, if_false, if_true,
        Nat.add_zero] at h1 h2 h3 h4
      have hpos := countP_pos_of_get holdsUpd hget (by rfl)
      have huf : s.updSem = false := by
        cases huv : s.updSem
        · rfl
        · exfalso
          rw [huv] at hU
          simp only [eq_self_iff_true, if_true] at hU
          omega
      rw [huf] at hU
      simp only [Bool.false_eq_true, if_false] at hU
      refine ⟨?_, ?_, ?_, ?_⟩ <;>
        try simp only [Bool.false_eq_true, Bool.true_eq_false, eq_self_iff_true, if_false, if_true]
      all_goals try rw [← hB]
      all_goals omega

/-- The invariant holds in every reachable state. -/
lemma reachable_inv {n : ℕ} {s : Sys} (h : Reachable (mkInit n) s) : Inv s := by
  induction h with
  | refl => exact inv_init n
  | step _ hstep ih => exact inv_step hstep ih

end Arb

/-- **C10.** For any number of concurrent wall-update requests on the
same powerboard, in every reachable state at most one serial
request/response pair is in flight; the number of completed serial
writes never exceeds the number of successful non-blocking acquisitions
of the per-board update semaphore and equals it once every request has
finished; and a request that fails the try-acquire moves directly to
`dropped` with no write and no win — it is never queued. -/
theorem C10_at_most_one_in_flight :
    ∀ (n : ℕ) (s : Arb.Sys), Arb.Reachable (Arb.mkInit n) s →
      s.threads.countP (fun l => l = Arb.Loc.inFlight) ≤ 1
      ∧ s.writes ≤ s.wins
      ∧ ((∀ l ∈ s.threads, l = Arb.Loc.done ∨ l = Arb.Loc.dropped) → s.writes = s.wins)
      ∧ (∀ (s' : Arb.Sys) (i : ℕ), Arb.Step s s' →
          s.threads.get? i = some Arb.Loc.start → s.updSem = false →
          s'.threads.get? i = some Arb.Loc.start ∨
            (s'.threads.get? i = some Arb.Loc.dropped
              ∧ s'.wins = s.wins ∧ s'.writes = s.writes)) := by
  intro n s hreach
  obtain ⟨hU, hB, hW, hR⟩ := Arb.reachable_inv hreach
  refine ⟨?_, ?_, ?_, ?_⟩
  · have hmono : s.threads.countP (fun l => l = Arb.Loc.inFlight)
        ≤ s.threads.countP Arb.holdsBoard := by
      apply List.countP_mono_left
      intro x _ hx
      have : x = Arb.Loc.inFlight := by simpa using hx
      rw [this]
      rfl
    refine le_trans hmono ?_
    rw [hB]
    cases s.boardSem <;> simp
  · have hmono : s.threads.countP Arb.wrote ≤ s.threads.countP Arb.countedWin := by
      apply List.countP_mono_left
      intro x _ hx
      cases x <;> simp [Arb.wrote, Arb.countedWin] at hx ⊢
    rw [hW, hR]
    exact hmono
  · intro hterm
    rw [hW, hR]
    apply List.countP_congr
    intro x hx
    rcases hterm x hx with h | h <;> rw [h] <;> simp [Arb.wrote, Arb.countedWin]
  · intro s' i hstep hgeti hupdf
    cases hstep with
    | tryAcquireWin j hgetj hupd => rw [hupd] at hupdf; exact absurd hupdf (by simp)
    | tryAcquireFail j hgetj hupd =>
        by_cases hij : i = j
        · subst hij
          right
          refine ⟨?_, rfl, rfl⟩
          have : (s.threads.set i Arb.Loc.dropped).get? i
              = (fun _ => Arb.Loc.dropped) <$> s.threads.get? i := List.get?_set_eq _ _ _
          rw [this, hgeti]
          rfl
        · left
          have := List.get?_set_ne Arb.Loc.dropped s.threads
            (fun he => hij he.symm : j ≠ i)
          rw [this]
          exact hgeti
    | acquireBoardWait j hgetj hbrd =>
        left
        have hij : j ≠ i := by
          intro he
          subst he
          rw [hgetj] at hgeti
          exact absurd (Option.some.inj hgeti) (by simp)
        rw [List.get?_set_ne Arb.Loc.waitHeld s.threads hij]
        exact hgeti
    | releaseBoardWait j hgetj =>
        left
        have hij : j ≠ i := by
          intro he
          subst he
          rw [hgetj] at hgeti
          exact absurd (Option.some.inj hgeti) (by simp)
        rw [List.get?_set_ne Arb.Loc.preUpdate s.threads hij]
        exact hgeti
    | acquireBoardUpdate j hgetj hbrd =>
        left
        have hij : j ≠ i := by
          intro he
          subst he
          rw [hgetj] at hgeti
          exact absurd (Option.some.inj hgeti) (by simp)
        rw [List.get?_set_ne Arb.Loc.inFlight s.threads hij]
        exact hgeti
    | completeWrite j hgetj =>
        left
        have hij : j ≠ i := by
          intro he
          subst he
          rw [hgetj] at hgeti
          exact absurd (Option.some.inj hgeti) (by simp)
        rw [List.get?_set_ne Arb.Loc.postWrite s.threads hij]
        exact hgeti
    | releaseUpd j hgetj =>
        left
        have hij : j ≠ i := by
          intro he
          subst he
          rw [hgetj] at hgeti
          exact absurd (Option.some.inj hgeti) (by simp)
        rw [List.get?_set_ne Arb.Loc.done s.threads hij]
        exact hgeti

/-- Witness for C10: two concurrent requests in the initial state. -/
theorem C10_at_most_one_in_flight_witness :
    (Arb.mkInit 2).threads.countP (fun l => l = Arb.Loc.inFlight) ≤ 1
    ∧ (Arb.mkInit 2).writes ≤ (Arb.mkInit 2).wins :=
  ⟨(C10_at_most_one_in_flight 2 (Arb.mkInit 2) Arb.Reachable.refl).1,
    (C10_at_most_one_in_flight 2 (Arb.mkInit 2) Arb.Reachable.refl).2.1⟩

end HakoFoundry
